import Mathlib

/-!
Verification of the Perpetua IPC transport layer
(`src-gui/src-tauri/ipc/src/{lib.rs, connection.rs, event.rs}`).

The development shallowly embeds:
* the `EventLinesCodec` frame decoder/encoder (`lib.rs`), with bytes as
  `Nat` values, buffers as `List Nat`, and the `usize` saturating
  arithmetic made explicit;
* the `ConnectionHandler::listen` dispatch loop and its ping probe;
* `AtomicAsyncReader::read_line`;
* the `wait_connection` / `connect` backoff loop (`connection.rs`);
* the serde-derived tag decoding of `EventType` (`event.rs`).
-/

/-- Value of `usize::MAX` on the 64-bit targets the crate builds for. -/
def USIZE_MAX : Nat := 2 ^ 64 - 1

theorem USIZE_MAX_eq : USIZE_MAX = 18446744073709551615 := by
  norm_num [USIZE_MAX]

/-- Model of `usize::saturating_add(1)` as used for
`self.max_length.saturating_add(1)` in `EventLinesCodec::decode`. -/
def satAdd1 (n : Nat) : Nat := min (n + 1) USIZE_MAX

/-- Big-endian byte decomposition of a `u32` value, modelling
`u32::to_be_bytes` (the argument is already reduced mod `2^32`). -/
def be32 (n : Nat) : List Nat :=
  [n / 2 ^ 24 % 256, n / 2 ^ 16 % 256, n / 2 ^ 8 % 256, n % 256]

/-- Model of `u32::from_be_bytes` applied to the final 4-byte slice of a
candidate line (`lib.rs:133`). Source code always passes exactly 4 bytes. -/
def readBe32 : List Nat → Nat
  | [a, b, c, d] => a * 2 ^ 24 + b * 2 ^ 16 + c * 2 ^ 8 + d
  | _ => 0

/-- Model of `<EventLinesCodec as Encoder>::encode` (`lib.rs:178-187`):
payload bytes, then the 4-byte big-endian `line.len() as u32`
(truncated mod `2^32`), then the `\n` terminator byte. -/
def encode (p : List Nat) : List Nat :=
  p ++ be32 (p.length % 2 ^ 32) ++ [10]

/-- Model of `.iter().position(|b| *b == b'\n')` (`lib.rs:93-95`). -/
def pos10 : List Nat → Option Nat
  | [] => none
  | b :: l => if b == 10 then some 0 else (pos10 l).map (· + 1)

/-- Model of `without_carriage_return` (`lib.rs:75-81`). -/
def stripCR (s : List Nat) : List Nat :=
  match s.getLast? with
  | some 13 => s.dropLast
  | _ => s

/-- Is `c` a UTF-8 continuation byte (`0x80..=0xBF`)? -/
def isCont (c : Nat) : Bool := 128 ≤ c && c ≤ 191

/-- Admissible range of the first continuation byte after lead byte `b`,
per the UTF-8 well-formedness table used by `str::from_utf8`. -/
def cont1OK (b c : Nat) : Bool :=
  if b = 224 then 160 ≤ c && c ≤ 191
  else if b = 237 then 128 ≤ c && c ≤ 159
  else if b = 240 then 144 ≤ c && c ≤ 191
  else if b = 244 then 128 ≤ c && c ≤ 143
  else isCont c

/-- Model of UTF-8 validity as checked by `str::from_utf8` inside the
`utf8` helper (`lib.rs:70-73`). -/
def validUtf8 : List Nat → Bool
  | [] => true
  | b :: l =>
    if b ≤ 127 then validUtf8 l
    else if b < 194 then false
    else if b ≤ 223 then
      match l with
      | c1 :: l2 => isCont c1 && validUtf8 l2
      | [] => false
    else if b ≤ 239 then
      match l with
      | c1 :: c2 :: l2 => cont1OK b c1 && isCont c2 && validUtf8 l2
      | _ => false
    else if b ≤ 244 then
      match l with
      | c1 :: c2 :: c3 :: l2 => cont1OK b c1 && isCont c2 && isCont c3 && validUtf8 l2
      | _ => false
    else false

/-- State of `EventLinesCodec` (`lib.rs:42-58`). -/
structure EventLinesCodec where
  next_index : Nat
  max_length : Nat
  is_discarding : Bool
deriving DecidableEq

/-- The state produced by `EventLinesCodec::new` (`lib.rs:61-67`):
`next_index = 0`, `max_length = usize::MAX`, `is_discarding = false`. -/
def EventLinesCodec.new : EventLinesCodec := ⟨0, USIZE_MAX, false⟩

/-- Errors of the decoder: `LinesCodecError::MaxLineLengthExceeded` and the
I/O error produced by a UTF-8 decode failure. -/
inductive DecodeError where
  | maxLineLengthExceeded
  | utf8Error
deriving DecidableEq

/-- Result of one `decode` call: `Ok(Option<String>)` or `Err(...)`.
Decoded payloads are represented by their UTF-8 byte lists. -/
inductive DResult where
  | ok (v : Option (List Nat))
  | err (e : DecodeError)
deriving DecidableEq

/-- Output of one `decode` call: the returned value, the mutated codec
state, and the remaining buffer contents. -/
structure DecodeOut where
  res : DResult
  st : EventLinesCodec
  buf : List Nat
deriving DecidableEq

/-- Shared tail of the `(false, Some(offset))` arm of `decode`
(`lib.rs:149-152`): strip a trailing `\r`, validate UTF-8, and return the
payload. -/
def finishLine (content : List Nat) (m : Nat) (rest : List Nat) : DecodeOut :=
  let c := stripCR content
  if validUtf8 c then ⟨.ok (some c), ⟨0, m, false⟩, rest⟩
  else ⟨.err .utf8Error, ⟨0, m, false⟩, rest⟩

/-- Fuelled model of the `loop` body of
`<EventLinesCodec as Decoder>::decode` (`lib.rs:87-169`). The fuel only
bounds the internal loop; `decode` below supplies enough fuel for every
reachable iteration (each loop iteration strictly shrinks the buffer). -/
def decodeAux : Nat → EventLinesCodec → List Nat → DecodeOut
  | 0, st, buf => ⟨.ok none, st, buf⟩
  | fuel + 1, st, buf =>
    let read_to := min (satAdd1 st.max_length) buf.length
    match st.is_discarding, pos10 ((buf.take read_to).drop st.next_index) with
    | true, some off =>
      decodeAux fuel ⟨0, st.max_length, false⟩ (buf.drop (off + st.next_index + 1))
    | true, none =>
      let buf2 := buf.drop read_to
      if buf2.isEmpty then ⟨.ok none, ⟨0, st.max_length, true⟩, buf2⟩
      else decodeAux fuel ⟨0, st.max_length, true⟩ buf2
    | false, some off =>
      let nlIdx := off + st.next_index
      let line0 := buf.take nlIdx
      let rest := buf.drop (nlIdx + 1)
      if line0.length < 4 then ⟨.ok none, ⟨0, st.max_length, false⟩, rest⟩
      else
        let pre4 := line0.drop (line0.length - 4)
        let content := line0.take (line0.length - 4)
        if readBe32 pre4 ≠ content.length then
          if rest.length < read_to then ⟨.ok none, ⟨0, st.max_length, false⟩, rest⟩
          else
            let rest2 := rest.drop read_to
            if rest2.isEmpty then ⟨.ok none, ⟨0, st.max_length, false⟩, rest2⟩
            else finishLine content st.max_length rest2
        else finishLine content st.max_length rest
    | false, none =>
      if buf.length > st.max_length then
        ⟨.err .maxLineLengthExceeded, ⟨st.next_index, st.max_length, true⟩, buf⟩
      else ⟨.ok none, ⟨read_to, st.max_length, false⟩, buf⟩

/-- One call of `EventLinesCodec::decode` on buffer `buf` in state `st`. -/
def decode (st : EventLinesCodec) (buf : List Nat) : DecodeOut :=
  decodeAux (buf.length + 1) st buf

/-! ### Basic facts about the scanning and framing helpers -/

theorem pos10_eq_none {l : List Nat} (h : ∀ x ∈ l, x ≠ 10) : pos10 l = none := by
  induction l with
  | nil => rfl
  | cons b t ih =>
    have hb : ¬ (b == 10) = true := by
      simpa using h b (List.mem_cons_self b t)
    simp [pos10, hb, ih fun x hx => h x (List.mem_cons_of_mem b hx)]

theorem pos10_append_ten (a r : List Nat) (h : ∀ x ∈ a, x ≠ 10) :
    pos10 (a ++ 10 :: r) = some a.length := by
  induction a with
  | nil => simp [pos10]
  | cons b t ih =>
    have hb : ¬ (b == 10) = true := by
      simpa using h b (List.mem_cons_self b t)
    simp [pos10, hb, ih fun x hx => h x (List.mem_cons_of_mem b hx)]

theorem stripCR_eq {l : List Nat} (h : l.getLast? ≠ some 13) : stripCR l = l := by
  unfold stripCR
  split
  · next heq => exact absurd heq h
  · rfl

theorem readBe32_be32 {n : Nat} (h : n < 2 ^ 32) : readBe32 (be32 n) = n := by
  simp only [be32, readBe32]
  omega

theorem be32_length (n : Nat) : (be32 n).length = 4 := by
  simp [be32]

theorem encode_eq (p : List Nat) (h : p.length < 2 ^ 32) :
    encode p = (p ++ be32 p.length) ++ [10] := by
  unfold encode
  rw [Nat.mod_eq_of_lt h]

theorem encode_length (p : List Nat) : (encode p).length = p.length + 5 := by
  simp [encode, be32_length]

theorem satAdd1_pos (m : Nat) : 1 ≤ satAdd1 m := by
  simp only [satAdd1, USIZE_MAX_eq]
  omega

theorem satAdd1_usize : satAdd1 USIZE_MAX = USIZE_MAX := by
  simp only [satAdd1, USIZE_MAX_eq]
  omega

/-- Decoding the empty buffer always returns `Ok(None)` and resets
`next_index` to `0` for a discarding state, or sets it to `read_to = 0`
otherwise; the discarding flag is preserved. -/
theorem decode_nil (st : EventLinesCodec) :
    decode st [] = ⟨.ok none, ⟨0, st.max_length, st.is_discarding⟩, []⟩ := by
  rcases st with ⟨n, m, d⟩
  cases d <;> simp [decode, decodeAux, pos10]

/-- A complete well-formed frame in the buffer decodes, in one call, to its
payload, leaving an empty buffer and a reset non-discarding state. Stated
for any fuel of at least one step because this arm of the loop does not
iterate. -/
theorem decode_good_frame_aux (fuel n M : Nat) (g : List Nat)
    (hfuel : 1 ≤ fuel)
    (h10 : ∀ x ∈ g, x ≠ 10) (hpre : ∀ x ∈ be32 g.length, x ≠ 10)
    (hcr : g.getLast? ≠ some 13) (hu : validUtf8 g = true)
    (h32 : g.length < 2 ^ 32)
    (hn : n ≤ g.length + 4) (hM : g.length + 4 < satAdd1 M) :
    decodeAux fuel ⟨n, M, false⟩ (encode g) = ⟨.ok (some g), ⟨0, M, false⟩, []⟩ := by
  obtain ⟨f, rfl⟩ : ∃ f, fuel = f + 1 := ⟨fuel - 1, by omega⟩
  have hq10 : ∀ x ∈ g ++ be32 g.length, x ≠ 10 := by
    intro x hx
    rcases List.mem_append.1 hx with h | h
    · exact h10 x h
    · exact hpre x h
  have hqlen : (g ++ be32 g.length).length = g.length + 4 := by
    simp [be32_length]
  have henc : encode g = (g ++ be32 g.length) ++ [10] := encode_eq g h32
  have hlen : (encode g).length = g.length + 5 := encode_length g
  have hrt : min (satAdd1 M) (encode g).length = (encode g).length := by
    rw [hlen]; omega
  have htake : (encode g).take (min (satAdd1 M) (encode g).length) = encode g := by
    rw [hrt, List.take_length]
  have hdropn : (encode g).drop n = ((g ++ be32 g.length).drop n) ++ 10 :: [] := by
    rw [henc, List.drop_append_of_le_length (by omega)]
  have hpos : pos10 ((encode g).drop n) = some (g.length + 4 - n) := by
    rw [hdropn, pos10_append_ten _ _ fun x hx => hq10 x (List.mem_of_mem_drop hx)]
    rw [List.length_drop, hqlen]
  have hnl : g.length + 4 - n + n = g.length + 4 := by omega
  have hline : (encode g).take (g.length + 4) = g ++ be32 g.length := by
    rw [henc, List.take_left' hqlen]
  have hrest : (encode g).drop (g.length + 4 + 1) = [] := by
    rw [show g.length + 4 + 1 = (encode g).length by omega, List.drop_length]
  simp only [decodeAux, htake, hpos, hnl, hline, hrest]
  rw [hqlen]
  simp only [if_neg (by omega : ¬ (g.length + 4 < 4))]
  have hpre4 : (g ++ be32 g.length).drop (g.length + 4 - 4) = be32 g.length := by
    rw [show g.length + 4 - 4 = g.length from by omega, List.drop_left]
  have hcont : (g ++ be32 g.length).take (g.length + 4 - 4) = g := by
    rw [show g.length + 4 - 4 = g.length from by omega, List.take_left]
  rw [hpre4, hcont, readBe32_be32 h32]
  simp [finishLine, stripCR_eq hcr, hu]

/-- `decode` on a complete well-formed frame, at the standard fuel. -/
theorem decode_good_frame (n M : Nat) (g : List Nat)
    (h10 : ∀ x ∈ g, x ≠ 10) (hpre : ∀ x ∈ be32 g.length, x ≠ 10)
    (hcr : g.getLast? ≠ some 13) (hu : validUtf8 g = true)
    (h32 : g.length < 2 ^ 32)
    (hn : n ≤ g.length + 4) (hM : g.length + 4 < satAdd1 M) :
    decode ⟨n, M, false⟩ (encode g) = ⟨.ok (some g), ⟨0, M, false⟩, []⟩ :=
  decode_good_frame_aux ((encode g).length + 1) n M g (by omega) h10 hpre hcr hu h32 hn hM

/-- A terminated frame whose 4-byte big-endian length prefix does not match
its content length is dropped: the call returns `Ok(None)`, the corrupt
bytes are consumed, and the rest of the buffer is preserved for the next
call (`lib.rs:135-147`, taking the `buf.len() < read_to` early return). -/
theorem decode_corrupt_frame (c pre R : List Nat)
    (hc : ∀ x ∈ c, x ≠ 10) (hp : ∀ x ∈ pre, x ≠ 10) (hp4 : pre.length = 4)
    (hmis : readBe32 pre ≠ c.length)
    (hbig : c.length + 5 + R.length ≤ USIZE_MAX) :
    decode ⟨0, USIZE_MAX, false⟩ (c ++ pre ++ 10 :: R)
      = ⟨.ok none, ⟨0, USIZE_MAX, false⟩, R⟩ := by
  have hcp10 : ∀ x ∈ c ++ pre, x ≠ 10 := by
    intro x hx
    rcases List.mem_append.1 hx with h | h
    · exact hc x h
    · exact hp x h
  have hcplen : (c ++ pre).length = c.length + 4 := by simp [hp4]
  have hbuf : c ++ pre ++ 10 :: R = (c ++ pre) ++ 10 :: R := by simp
  have hblen : (c ++ pre ++ 10 :: R).length = c.length + 5 + R.length := by
    simp [hp4]; omega
  have hrt : min (satAdd1 USIZE_MAX) (c ++ pre ++ 10 :: R).length
      = (c ++ pre ++ 10 :: R).length := by
    rw [satAdd1_usize, hblen]; omega
  have htake : (c ++ pre ++ 10 :: R).take
      (min (satAdd1 USIZE_MAX) (c ++ pre ++ 10 :: R).length) = c ++ pre ++ 10 :: R := by
    rw [hrt, List.take_length]
  have hpos : pos10 ((c ++ pre ++ 10 :: R).drop 0) = some (c.length + 4) := by
    rw [List.drop_zero, hbuf, pos10_append_ten _ _ hcp10, hcplen]
  have hline : (c ++ pre ++ 10 :: R).take (c.length + 4 + 0) = c ++ pre := by
    rw [Nat.add_zero, hbuf, List.take_left' hcplen]
  have hrest : (c ++ pre ++ 10 :: R).drop (c.length + 4 + 0 + 1) = R := by
    rw [Nat.add_zero, hbuf, show (c ++ pre) ++ 10 :: R = ((c ++ pre) ++ [10]) ++ R by simp,
      List.drop_left' (by simp [hp4])]
  simp only [decode, decodeAux, htake, hpos, hline, hrest]
  rw [hcplen]
  simp only [if_neg (by omega : ¬ (c.length + 4 < 4))]
  have hpre4 : (c ++ pre).drop (c.length + 4 - 4) = pre := by
    rw [show c.length + 4 - 4 = c.length from by omega, List.drop_left]
  have hcont : (c ++ pre).take (c.length + 4 - 4) = c := by
    rw [show c.length + 4 - 4 = c.length from by omega, List.take_left]
  rw [hpre4, hcont]
  simp only [if_pos hmis]
  rw [hrt, hblen]
  simp only [if_pos (by omega : R.length < c.length + 5 + R.length)]

/-- With no terminator in the buffer and the default `usize::MAX` limit,
`decode` returns `Ok(None)`, leaves the buffer, and records the scanned
length in `next_index` (`lib.rs:161-166`). -/
theorem decode_no_newline (P : List Nat) (n : Nat)
    (h10 : ∀ x ∈ P, x ≠ 10) (hP : P.length ≤ USIZE_MAX) :
    decode ⟨n, USIZE_MAX, false⟩ P = ⟨.ok none, ⟨P.length, USIZE_MAX, false⟩, P⟩ := by
  have hrt : min (satAdd1 USIZE_MAX) P.length = P.length := by
    rw [satAdd1_usize]; omega
  have htake : P.take (min (satAdd1 USIZE_MAX) P.length) = P := by
    rw [hrt, List.take_length]
  have hpos : pos10 (P.drop n) = none :=
    pos10_eq_none fun x hx => h10 x (List.mem_of_mem_drop hx)
  simp only [decode, decodeAux, htake, hpos]
  rw [if_neg (by omega : ¬ P.length > USIZE_MAX), hrt]

/-- A terminated candidate line shorter than the 4-byte length prefix is
rejected with `Ok(None)`, but the candidate and its terminator are consumed
(`buf.split_to` at `lib.rs:120` precedes the length check at `lib.rs:124`). -/
theorem decode_short_line (c R : List Nat) (n : Nat)
    (hc : ∀ x ∈ c, x ≠ 10) (hlt : c.length < 4) (hn : n ≤ c.length)
    (hbig : c.length + 1 + R.length ≤ USIZE_MAX) :
    decode ⟨n, USIZE_MAX, false⟩ (c ++ 10 :: R) = ⟨.ok none, ⟨0, USIZE_MAX, false⟩, R⟩ := by
  have hblen : (c ++ 10 :: R).length = c.length + 1 + R.length := by simp; omega
  have hrt : min (satAdd1 USIZE_MAX) (c ++ 10 :: R).length = (c ++ 10 :: R).length := by
    rw [satAdd1_usize, hblen]; omega
  have htake : (c ++ 10 :: R).take (min (satAdd1 USIZE_MAX) (c ++ 10 :: R).length)
      = c ++ 10 :: R := by
    rw [hrt, List.take_length]
  have hdropn : (c ++ 10 :: R).drop n = c.drop n ++ 10 :: R :=
    List.drop_append_of_le_length hn
  have hpos : pos10 ((c ++ 10 :: R).drop n) = some (c.length - n) := by
    rw [hdropn, pos10_append_ten _ _ fun x hx => hc x (List.mem_of_mem_drop hx),
      List.length_drop]
  have hnl : c.length - n + n = c.length := by omega
  have hline : (c ++ 10 :: R).take c.length = c := List.take_left c (10 :: R)
  have hrest : (c ++ 10 :: R).drop (c.length + 1) = R := by
    rw [show c ++ 10 :: R = (c ++ [10]) ++ R by simp, List.drop_left' (by simp)]
  simp only [decode, decodeAux, htake, hpos, hnl, hline, hrest]
  simp only [if_pos hlt]

/-- Exceeding the configured maximum without a terminator returns
`Err(MaxLineLengthExceeded)` and switches the decoder to the discarding
state, leaving the buffer and `next_index` intact (`lib.rs:154-160`). -/
theorem decode_overlong (J : List Nat) (M n : Nat)
    (hJ : ∀ x ∈ J, x ≠ 10) (hM : J.length > M) :
    decode ⟨n, M, false⟩ J = ⟨.err .maxLineLengthExceeded, ⟨n, M, true⟩, J⟩ := by
  have hpos : pos10 ((J.take (min (satAdd1 M) J.length)).drop n) = none :=
    pos10_eq_none fun x hx =>
      hJ x (List.mem_of_mem_take (List.mem_of_mem_drop hx))
  simp only [decode, decodeAux, hpos]
  rw [if_pos hM]

/-- From the discarding state, a buffer consisting of junk (no terminator),
a terminator, and then one well-formed frame is handled in a single call:
the junk and its terminator are dropped, the discarding state is cleared,
and the loop goes on to decode the frame (`lib.rs:98-105` then
`lib.rs:116-152`). -/
theorem decode_discard_then_frame (M : Nat) (g : List Nat)
    (h10 : ∀ x ∈ g, x ≠ 10) (hpre : ∀ x ∈ be32 g.length, x ≠ 10)
    (hcr : g.getLast? ≠ some 13) (hu : validUtf8 g = true)
    (h32 : g.length < 2 ^ 32) (hgM : g.length + 4 < satAdd1 M) :
    ∀ (k : Nat) (J : List Nat), J.length = k → ∀ (fuel n : Nat),
      (∀ x ∈ J, x ≠ 10) → n ≤ J.length → J.length + 2 ≤ fuel →
      decodeAux fuel ⟨n, M, true⟩ (J ++ 10 :: encode g)
        = ⟨.ok (some g), ⟨0, M, false⟩, []⟩ := by
  intro k
  induction k using Nat.strong_induction_on with
  | _ k IH =>
    intro J hJk fuel n hJ10 hn hfuel
    obtain ⟨f, rfl⟩ : ∃ f, fuel = f + 1 := ⟨fuel - 1, by omega⟩
    have hL : (J ++ 10 :: encode g).length = J.length + 1 + (encode g).length := by
      simp; omega
    have hrt1 : 1 ≤ min (satAdd1 M) (J ++ 10 :: encode g).length := by
      have := satAdd1_pos M
      rw [hL]
      omega
    rcases Nat.lt_or_ge J.length (min (satAdd1 M) (J ++ 10 :: encode g).length)
      with hA | hB
    · -- the junk terminator is inside the scan window: discard through it,
      -- then decode the frame in the same call
      have hrtle : min (satAdd1 M) (J ++ 10 :: encode g).length
          ≤ (J ++ 10 :: encode g).length := Nat.min_le_right _ _
      have htake : (J ++ 10 :: encode g).take (min (satAdd1 M) (J ++ 10 :: encode g).length)
          = J ++ 10 :: (encode g).take
              (min (satAdd1 M) (J ++ 10 :: encode g).length - J.length - 1) := by
        rw [show min (satAdd1 M) (J ++ 10 :: encode g).length
            = J.length + (min (satAdd1 M) (J ++ 10 :: encode g).length - J.length)
            from by omega, List.take_append,
          show min (satAdd1 M) (J ++ 10 :: encode g).length - J.length
            = (min (satAdd1 M) (J ++ 10 :: encode g).length - J.length - 1) + 1
            from by omega, List.take_succ_cons]
        congr 3
        omega
      have hpos : pos10 (((J ++ 10 :: encode g).take
          (min (satAdd1 M) (J ++ 10 :: encode g).length)).drop n)
          = some (J.length - n) := by
        rw [htake, List.drop_append_of_le_length hn,
          pos10_append_ten _ _ fun x hx => hJ10 x (List.mem_of_mem_drop hx),
          List.length_drop]
      simp only [decodeAux, hpos]
      rw [show J.length - n + n + 1 = J.length + 1 from by omega,
        show J ++ 10 :: encode g = (J ++ [10]) ++ encode g from by simp,
        List.drop_left' (by simp)]
      exact decode_good_frame_aux f 0 M g (by omega) h10 hpre hcr hu h32 (by omega) hgM
    · -- terminator outside the scan window: drop the window and keep discarding
      have htake : (J ++ 10 :: encode g).take (min (satAdd1 M) (J ++ 10 :: encode g).length)
          = J.take (min (satAdd1 M) (J ++ 10 :: encode g).length) :=
        List.take_append_of_le_length hB
      have hpos : pos10 (((J ++ 10 :: encode g).take
          (min (satAdd1 M) (J ++ 10 :: encode g).length)).drop n) = none := by
        rw [htake]
        exact pos10_eq_none fun x hx =>
          hJ10 x (List.mem_of_mem_take (List.mem_of_mem_drop hx))
      have hdrop : (J ++ 10 :: encode g).drop (min (satAdd1 M) (J ++ 10 :: encode g).length)
          = J.drop (min (satAdd1 M) (J ++ 10 :: encode g).length) ++ 10 :: encode g :=
        List.drop_append_of_le_length hB
      have hne : ((J ++ 10 :: encode g).drop
          (min (satAdd1 M) (J ++ 10 :: encode g).length)).isEmpty = false := by
        rw [hdrop]
        simp
      simp only [decodeAux, hpos, hne]
      rw [if_neg (by simp [hne]), hdrop]
      exact IH (J.length - min (satAdd1 M) (J ++ 10 :: encode g).length)
        (by omega)
        (J.drop (min (satAdd1 M) (J ++ 10 :: encode g).length))
        (by rw [List.length_drop])
        f 0
        (fun x hx => hJ10 x (List.mem_of_mem_drop hx))
        (by omega)
        (by rw [List.length_drop]; omega)

/-! ### Driving the decoder the way `FramedRead` does -/

/-- Result of draining the decoder after a buffer refill: the payloads
produced, the final codec state and buffer, and a possible error. -/
structure DrainOut where
  outs : List (List Nat)
  st : EventLinesCodec
  buf : List Nat
  err : Option DecodeError
deriving DecidableEq

/-- Fuelled driver calling `decode` repeatedly while it yields an item,
as the framed reader does between reads. Each yielded item strictly
shrinks the buffer, so the fuel chosen by `drain` below never runs out. -/
def drainAux : Nat → EventLinesCodec → List Nat → DrainOut
  | 0, st, buf => ⟨[], st, buf, none⟩
  | fuel + 1, st, buf =>
    match decode st buf with
    | ⟨.ok (some p), st1, buf1⟩ =>
      let d := drainAux fuel st1 buf1
      ⟨p :: d.outs, d.st, d.buf, d.err⟩
    | ⟨.ok none, st1, buf1⟩ => ⟨[], st1, buf1, none⟩
    | ⟨.err e, st1, buf1⟩ => ⟨[], st1, buf1, some e⟩

/-- Drain the decoder on the current buffer. -/
def drain (st : EventLinesCodec) (buf : List Nat) : DrainOut :=
  drainAux (buf.length + 1) st buf

/-- Output of feeding a sequence of byte chunks through the decoder. -/
structure FeedOut where
  outs : List (List Nat)
  st : EventLinesCodec
  buf : List Nat
  err : Option DecodeError
deriving DecidableEq

/-- Feed chunks one at a time: append a chunk to the buffer, drain, and
continue with the next chunk (stopping at the first decode error), as the
framed reader does across successive socket reads. -/
def feedAll : EventLinesCodec → List Nat → List (List Nat) → FeedOut
  | st, buf, [] => ⟨[], st, buf, none⟩
  | st, buf, ch :: rest =>
    let d := drain st (buf ++ ch)
    match d.err with
    | some e => ⟨d.outs, d.st, d.buf, some e⟩
    | none =>
      let f := feedAll d.st d.buf rest
      ⟨d.outs ++ f.outs, f.st, f.buf, f.err⟩

theorem drain_of_none {st : EventLinesCodec} {buf : List Nat}
    {st1 : EventLinesCodec} (h : decode st buf = ⟨.ok none, st1, buf⟩) :
    drain st buf = ⟨[], st1, buf, none⟩ := by
  simp [drain, drainAux, h]

theorem drain_of_some_empty {st : EventLinesCodec} {buf : List Nat}
    {p : List Nat} {st1 : EventLinesCodec}
    (h : decode st buf = ⟨.ok (some p), st1, []⟩) (hne : 1 ≤ buf.length) :
    drain st buf = ⟨[p], ⟨0, st1.max_length, st1.is_discarding⟩, [], none⟩ := by
  obtain ⟨k, hk⟩ : ∃ k, buf.length = k + 1 := ⟨buf.length - 1, by omega⟩
  simp [drain, hk, drainAux, h, decode_nil st1]

theorem feedAll_nil_chunks (m : Nat) :
    ∀ chunks : List (List Nat), (∀ ch ∈ chunks, ch = ([] : List Nat)) →
    feedAll ⟨0, m, false⟩ [] chunks = ⟨[], ⟨0, m, false⟩, [], none⟩ := by
  intro chunks
  induction chunks with
  | nil => intro _; rfl
  | cons ch rest ih =>
    intro h
    have hch : ch = ([] : List Nat) := h ch (List.mem_cons_self ch rest)
    subst hch
    have hdec : decode (⟨0, m, false⟩ : EventLinesCodec) [] = ⟨.ok none, ⟨0, m, false⟩, []⟩ :=
      decode_nil _
    have hd : drain (⟨0, m, false⟩ : EventLinesCodec) [] = ⟨[], ⟨0, m, false⟩, [], none⟩ :=
      drain_of_none hdec
    simp [feedAll, hd, ih fun c hc => h c (List.mem_cons_of_mem _ hc)]

/-- Key invariant for the round trip: with a (strict) leading portion of an
encoded frame already buffered and scanned, feeding the remaining chunks
produces exactly the one payload and ends in a clean, empty state. -/
theorem feed_roundtrip (p : List Nat)
    (h10 : ∀ x ∈ p, x ≠ 10) (hpre : ∀ x ∈ be32 p.length, x ≠ 10)
    (hcr : p.getLast? ≠ some 13) (hu : validUtf8 p = true)
    (h32 : p.length < 2 ^ 32) :
    ∀ (chunks : List (List Nat)) (P : List Nat),
      P ++ chunks.flatten = encode p → P.length < (encode p).length →
      feedAll ⟨P.length, USIZE_MAX, false⟩ P chunks
        = ⟨[p], ⟨0, USIZE_MAX, false⟩, [], none⟩ := by
  have henc : encode p = (p ++ be32 p.length) ++ [10] := encode_eq p h32
  have hqlen : (p ++ be32 p.length).length = p.length + 4 := by simp [be32_length]
  have helen : (encode p).length = p.length + 5 := encode_length p
  have humax : p.length + 5 ≤ USIZE_MAX := by rw [USIZE_MAX_eq]; omega
  have hq10 : ∀ x ∈ p ++ be32 p.length, x ≠ 10 := by
    intro x hx
    rcases List.mem_append.1 hx with h | h
    · exact h10 x h
    · exact hpre x h
  intro chunks
  induction chunks with
  | nil =>
    intro P hPf hPl
    rw [show (([] : List (List Nat)).flatten) = ([] : List Nat) from rfl,
      List.append_nil] at hPf
    rw [hPf] at hPl
    omega
  | cons ch rest ih =>
    intro P hPf hPl
    rw [List.flatten_cons, ← List.append_assoc] at hPf
    have hQle : (P ++ ch).length ≤ (encode p).length := by
      rw [← hPf]
      simp
    rcases Nat.lt_or_ge (P ++ ch).length (encode p).length with hlt | hge
    · -- still a strict portion of the frame: the call reports Ok(None)
      have h1 : (encode p).take (P ++ ch).length = P ++ ch := by
        conv_lhs => rw [← hPf]
        exact List.take_left (P ++ ch) rest.flatten
      have h2 : (encode p).take (P ++ ch).length
          = (p ++ be32 p.length).take (P ++ ch).length := by
        rw [henc]
        exact List.take_append_of_le_length (by omega)
      have hQ10 : ∀ x ∈ P ++ ch, x ≠ 10 := by
        intro x hx
        rw [← h1, h2] at hx
        exact hq10 x (List.mem_of_mem_take hx)
      have hdec : decode ⟨P.length, USIZE_MAX, false⟩ (P ++ ch)
          = ⟨.ok none, ⟨(P ++ ch).length, USIZE_MAX, false⟩, P ++ ch⟩ :=
        decode_no_newline _ _ hQ10 (by omega)
      have hdr := drain_of_none hdec
      have hrec := ih (P ++ ch) hPf hlt
      rw [List.length_append] at hdr hrec
      simp [feedAll, hdr, hrec]
    · -- the frame is complete in the buffer: it decodes in this step
      rw [List.length_append] at hge
      have hlen2 := congrArg List.length hPf
      rw [List.length_append, List.length_append] at hlen2
      have hrest0 : rest.flatten = [] :=
        List.length_eq_zero.1 (by omega)
      have hQfull : P ++ ch = encode p := by
        have h3 := hPf
        rw [hrest0, List.append_nil] at h3
        exact h3
      have hdec : decode ⟨P.length, USIZE_MAX, false⟩ (P ++ ch)
          = ⟨.ok (some p), ⟨0, USIZE_MAX, false⟩, []⟩ := by
        rw [hQfull]
        exact decode_good_frame P.length USIZE_MAX p h10 hpre hcr hu h32
          (by omega) (by rw [satAdd1_usize, USIZE_MAX_eq]; omega)
      have hdr := drain_of_some_empty hdec (by simp [hQfull, helen])
      have hrec : feedAll ⟨0, USIZE_MAX, false⟩ [] rest
          = ⟨[], ⟨0, USIZE_MAX, false⟩, [], none⟩ :=
        feedAll_nil_chunks USIZE_MAX rest (List.flatten_eq_nil_iff.1 hrest0)
      simp [feedAll, hdr, hrec]

/-! ### `ConnectionHandler::listen` and `ping` (`lib.rs:360-405`) -/

/-- The literal liveness-probe payload sent by `ConnectionHandler::ping`
(`lib.rs:363`). -/
def pingMsg : String := "\x7b\"command\": \"ping\"\x7d"

/-- One outcome of `self.reader.read_line(t)` as observed by the `listen`
loop. A `noData` outcome carries whether the ping write that `listen` then
issues succeeds (the behaviour of the writer at that instant). -/
inductive ReadStep where
  | line (s : String)
  | noData (pingOk : Bool)
  | readFail
deriving DecidableEq

/-- How a `listen` run ended within the modelled horizon: still blocked
reading (`pending`), stopped by the `while` guard, failed ping write, or a
hard reader error. -/
inductive LRes where
  | pending
  | stoppedOk
  | errPing
  | errRead
deriving DecidableEq

/-- Observable outcome of a `listen` run: how it ended, the final value of
`self.running`, the lines handed to the parser/callback stage in order,
and the payload of every write issued through the writer (the pings). -/
structure ListenOut where
  res : LRes
  running : Bool
  received : List String
  writes : List String
deriving DecidableEq

/-- The `while self.running` loop of `ConnectionHandler::listen`
(`lib.rs:377-403`), driven by a finite script of reader outcomes.
`Ok(Some(line))` records the line and continues (parse failures also
continue); `Ok(None)` sends one ping and fails with the I/O error exactly
when that write fails, setting `running` to `false`; `Err(e)` returns the
error immediately, leaving `running` untouched. An exhausted script means
the loop is still running (`pending`). -/
def listenGo : List ReadStep → Bool → List String → List String → ListenOut
  | _steps, false, acc, ws => ⟨.stoppedOk, false, acc.reverse, ws.reverse⟩
  | [], true, acc, ws => ⟨.pending, true, acc.reverse, ws.reverse⟩
  | step :: rest, true, acc, ws =>
    match step with
    | .line s => listenGo rest true (s :: acc) ws
    | .noData true => listenGo rest true acc (pingMsg :: ws)
    | .noData false => ⟨.errPing, false, acc.reverse, (pingMsg :: ws).reverse⟩
    | .readFail => ⟨.errRead, true, acc.reverse, ws.reverse⟩

/-- `ConnectionHandler::listen`: sets `self.running = true` and enters the
loop. (Named `listenRun` because `listen` collides with a library name.) -/
def listenRun (steps : List ReadStep) : ListenOut :=
  listenGo steps true [] []

/-- `ConnectionHandler::is_running` (`lib.rs:347-349`) applied to the
handler state left behind by a `listen` run. -/
def is_running (out : ListenOut) : Bool := out.running

/-! ### `AtomicAsyncReader::read_line` (`lib.rs:239-256`) -/

/-- Item produced by the inner framed stream: a decoded line, a decode
error, or `None` at end of stream. -/
inductive StreamItem where
  | okLine (s : String)
  | errLine
deriving DecidableEq

/-- Outcome of `timeout(*t, reader.next()).await`: either the timer
elapsed, or the stream produced `result : Option<Result<String, _>>`. -/
inductive PollResult where
  | elapsed
  | ready (r : Option StreamItem)
deriving DecidableEq

/-- Return value of `read_line`: `Ok(Option<String>)` or an I/O error. -/
inductive ReadLineRes where
  | ok (v : Option String)
  | ioErr
deriving DecidableEq

/-- Model of the `match` in `AtomicAsyncReader::read_line`
(`lib.rs:242-255`). -/
def read_line : PollResult → ReadLineRes
  | .elapsed => .ok none
  | .ready none => .ok none
  | .ready (some (.okLine s)) => .ok (some s)
  | .ready (some .errLine) => .ioErr

/-! ### `connection.rs`: endpoint resolution and the backoff loop -/

/-- Model of `std::env::VarError`. -/
inductive VarError where
  | notPresent
  | notUnicode
deriving DecidableEq

/-- Model of `SocketPathError` (`connection.rs:49-53`). -/
inductive SocketPathError where
  | homeDirNotFound (e : VarError)
deriving DecidableEq

/-- Model of `ConnectionError` (`connection.rs:39-47`). -/
inductive ConnectionError where
  | socketPath (e : SocketPathError)
  | ioErr
  | timeout
deriving DecidableEq

/-- Model of the `DefaultPath` enum (`connection.rs:56-59`). -/
inductive DefaultPath where
  | unix (path : String)
  | tcp (addr : String) (port : Nat)
deriving DecidableEq

/-- Result of `std::env::var("HOME")` in the caller's environment. -/
inductive HomeVar where
  | ok (home : String)
  | err (e : VarError)
deriving DecidableEq

/-- Model of `default_path` on the macOS (unix) branch
(`connection.rs:61-73`): the socket lives under
`$HOME/Library/Caches/Perpetua/perpetua_daemon.sock`, and a `$HOME`
resolution failure becomes `SocketPathError::HomeDirNotFound`. -/
def default_path (hv : HomeVar) : Except SocketPathError DefaultPath :=
  match hv with
  | .ok home =>
    .ok (.unix (home ++ "/Library/Caches/Perpetua/perpetua_daemon.sock"))
  | .err e => .error (.homeDirNotFound e)

/-- How a run of the `wait_connection` loop ended within the modelled
horizon of connection attempts. -/
inductive WaitRes where
  | connected
  | failed (e : ConnectionError)
  | pending
deriving DecidableEq

/-- Outcome of `wait_connection`: how it ended and, in order, the durations
passed to `tokio::time::sleep`. -/
structure WaitOut where
  res : WaitRes
  sleeps : List Nat
deriving DecidableEq

/-- The retry loop of `wait_connection` (`connection.rs:88-118`), driven by
a finite script of connection-attempt outcomes (`true` = the
`UnixStream::connect` succeeded). Durations are modelled as `Nat`. Each
iteration: attempt; on success return; if `timeout == max_t` fail with
`Timeout`; otherwise sleep `timeout` and set
`timeout = min(timeout * 2, max_t)`. An exhausted script is `pending`. -/
def waitLoop : List Bool → Nat → Nat → WaitOut
  | [], _t, _m => ⟨.pending, []⟩
  | o :: rest, t, m =>
    if o then ⟨.connected, []⟩
    else if t = m then ⟨.failed .timeout, []⟩
    else
      let r := waitLoop rest (min (t * 2) m) m
      ⟨r.res, t :: r.sleeps⟩

/-- Model of `wait_connection` (`connection.rs:84-119`): resolve the
endpoint first (an error is returned immediately, before any attempt or
sleep), then run the retry loop. -/
def wait_connection (hv : HomeVar) (outcomes : List Bool) (t m : Nat) : WaitOut :=
  match default_path hv with
  | .error e => ⟨.failed (.socketPath e), []⟩
  | .ok _ => waitLoop outcomes t m

/-- Model of `connect` (`connection.rs:121-126`): the `let Ok(..) = ... else`
pattern converts every `wait_connection` error into
`ConnectionError::Timeout`. -/
def connect (hv : HomeVar) (outcomes : List Bool) (t m : Nat) : WaitOut :=
  match wait_connection hv outcomes t m with
  | ⟨.failed _, sleeps⟩ => ⟨.failed .timeout, sleeps⟩
  | out => out

/-! ### `event.rs`: notification tag decoding -/

/-- The `EventType` enumeration (`event.rs:36-129`). -/
inductive EventType where
  | serviceInitialized | serviceStarting | serviceStarted | serviceStopping
  | serviceStopped | serviceError
  | connected | disconnected | connectionError | connectionLost
  | reconnecting | reconnected
  | discoveryStarted | serverListFound | serverDiscovered
  | discoveryCompleted | discoveryTimeout
  | otpNeeded | otpValidated | otpInvalid | otpGenerated
  | sslHandshakeStarted | sslHandshakeCompleted | sslHandshakeFailed
  | certificateShared | certificateReceived
  | serverChoiceNeeded | serverChoiceMade
  | clientConnected | clientDisconnected | clientAuthenticated
  | clientAdded | clientRemoved | clientUpdated
  | streamEnabled | streamDisabled | streamsUpdated
  | configLoaded | configSaved | configUpdated | configError
  | stateChanged | modeChanged
  | screenChanged | screenTransitionStarted | screenTransitionCompleted
  | fileTransferStarted | fileTransferProgress | fileTransferCompleted
  | fileTransferFailed | clipboardSynced
  | networkLatencyHigh | networkQualityDegraded | networkQualityRestored
  | statusUpdate | info | warning | error | test | pong
  | commandSuccess | commandError
  | other
deriving DecidableEq

/-- The snake_case tags produced by `#[serde(rename_all = "snake_case")]`
for the named `EventType` variants (everything except the
`#[serde(other)]` catch-all). -/
def recognizedTags : List String :=
  ["service_initialized", "service_starting", "service_started",
   "service_stopping", "service_stopped", "service_error",
   "connected", "disconnected", "connection_error", "connection_lost",
   "reconnecting", "reconnected",
   "discovery_started", "server_list_found", "server_discovered",
   "discovery_completed", "discovery_timeout",
   "otp_needed", "otp_validated", "otp_invalid", "otp_generated",
   "ssl_handshake_started", "ssl_handshake_completed", "ssl_handshake_failed",
   "certificate_shared", "certificate_received",
   "server_choice_needed", "server_choice_made",
   "client_connected", "client_disconnected", "client_authenticated",
   "client_added", "client_removed", "client_updated",
   "stream_enabled", "stream_disabled", "streams_updated",
   "config_loaded", "config_saved", "config_updated", "config_error",
   "state_changed", "mode_changed",
   "screen_changed", "screen_transition_started", "screen_transition_completed",
   "file_transfer_started", "file_transfer_progress", "file_transfer_completed",
   "file_transfer_failed", "clipboard_synced",
   "network_latency_high", "network_quality_degraded", "network_quality_restored",
   "status_update", "info", "warning", "error", "test", "pong",
   "command_success", "command_error"]

/-- Tag decoding generated by serde for `EventType`: each snake_case tag
maps to its variant, and `#[serde(other)]` (`event.rs:127-128`) maps any
other tag to `Other` instead of failing. -/
def eventTypeOfTag (s : String) : EventType :=
  if s = "service_initialized" then .serviceInitialized else
  if s = "service_starting" then .serviceStarting else
  if s = "service_started" then .serviceStarted else
  if s = "service_stopping" then .serviceStopping else
  if s = "service_stopped" then .serviceStopped else
  if s = "service_error" then .serviceError else
  if s = "connected" then .connected else
  if s = "disconnected" then .disconnected else
  if s = "connection_error" then .connectionError else
  if s = "connection_lost" then .connectionLost else
  if s = "reconnecting" then .reconnecting else
  if s = "reconnected" then .reconnected else
  if s = "discovery_started" then .discoveryStarted else
  if s = "server_list_found" then .serverListFound else
  if s = "server_discovered" then .serverDiscovered else
  if s = "discovery_completed" then .discoveryCompleted else
  if s = "discovery_timeout" then .discoveryTimeout else
  if s = "otp_needed" then .otpNeeded else
  if s = "otp_validated" then .otpValidated else
  if s = "otp_invalid" then .otpInvalid else
  if s = "otp_generated" then .otpGenerated else
  if s = "ssl_handshake_started" then .sslHandshakeStarted else
  if s = "ssl_handshake_completed" then .sslHandshakeCompleted else
  if s = "ssl_handshake_failed" then .sslHandshakeFailed else
  if s = "certificate_shared" then .certificateShared else
  if s = "certificate_received" then .certificateReceived else
  if s = "server_choice_needed" then .serverChoiceNeeded else
  if s = "server_choice_made" then .serverChoiceMade else
  if s = "client_connected" then .clientConnected else
  if s = "client_disconnected" then .clientDisconnected else
  if s = "client_authenticated" then .clientAuthenticated else
  if s = "client_added" then .clientAdded else
  if s = "client_removed" then .clientRemoved else
  if s = "client_updated" then .clientUpdated else
  if s = "stream_enabled" then .streamEnabled else
  if s = "stream_disabled" then .streamDisabled else
  if s = "streams_updated" then .streamsUpdated else
  if s = "config_loaded" then .configLoaded else
  if s = "config_saved" then .configSaved else
  if s = "config_updated" then .configUpdated else
  if s = "config_error" then .configError else
  if s = "state_changed" then .stateChanged else
  if s = "mode_changed" then .modeChanged else
  if s = "screen_changed" then .screenChanged else
  if s = "screen_transition_started" then .screenTransitionStarted else
  if s = "screen_transition_completed" then .screenTransitionCompleted else
  if s = "file_transfer_started" then .fileTransferStarted else
  if s = "file_transfer_progress" then .fileTransferProgress else
  if s = "file_transfer_completed" then .fileTransferCompleted else
  if s = "file_transfer_failed" then .fileTransferFailed else
  if s = "clipboard_synced" then .clipboardSynced else
  if s = "network_latency_high" then .networkLatencyHigh else
  if s = "network_quality_degraded" then .networkQualityDegraded else
  if s = "network_quality_restored" then .networkQualityRestored else
  if s = "status_update" then .statusUpdate else
  if s = "info" then .info else
  if s = "warning" then .warning else
  if s = "error" then .error else
  if s = "test" then .test else
  if s = "pong" then .pong else
  if s = "command_success" then .commandSuccess else
  if s = "command_error" then .commandError else
  .other

/-- A notification JSON document with the `NotificationEvent` field shape
(`event.rs:139-147`), its `event_type` still a raw tag string and the
free-form JSON values kept opaque as strings. -/
structure RawNotificationDoc where
  event_type : String
  data : Option String
  timestamp : String
  source : String
  message : Option String
  metadata : Option String
deriving DecidableEq

/-- A parsed `NotificationEvent` (`event.rs:139-147`). -/
structure NotificationEvent where
  event_type : EventType
  data : Option String
  timestamp : String
  source : String
  message : Option String
  metadata : Option String
deriving DecidableEq

/-- Deserialization of a shape-correct notification document, as generated
by serde for `NotificationEvent`: the only variant-level decision is the
`event_type` tag, and thanks to `#[serde(other)]` it never fails. -/
def parseNotificationDoc (d : RawNotificationDoc) : Except String NotificationEvent :=
  .ok ⟨eventTypeOfTag d.event_type, d.data, d.timestamp, d.source, d.message, d.metadata⟩

/-! ### Facts about the backoff loop and the listener loop -/

theorem waitLoop_head (os : List Bool) (t m : Nat) :
    (waitLoop os t m).sleeps = [] ∨
      ((waitLoop os t m).sleeps.head? = some t ∧ t ≠ m) := by
  cases os with
  | nil => left; rfl
  | cons o rest =>
    by_cases ho : o
    · left; simp [waitLoop, ho]
    · by_cases ht : t = m
      · left; simp [waitLoop, ho, ht]
      · right
        constructor
        · simp [waitLoop, ho, ht]
        · exact ht

theorem waitLoop_chain (os : List Bool) :
    ∀ t m, List.Chain' (fun a b => a ≤ b ∧ b ≤ m ∧ b = min (a * 2) m)
      (waitLoop os t m).sleeps := by
  induction os with
  | nil => intro t m; simp [waitLoop]
  | cons o rest ih =>
    intro t m
    by_cases ho : o
    · simp [waitLoop, ho]
    · by_cases ht : t = m
      · simp [waitLoop, ho, ht]
      · have hsl : (waitLoop (o :: rest) t m).sleeps
            = t :: (waitLoop rest (min (t * 2) m) m).sleeps := by
          simp [waitLoop, ho, ht]
        rw [hsl, List.chain'_cons']
        refine ⟨?_, ih (min (t * 2) m) m⟩
        intro y hy
        rcases waitLoop_head rest (min (t * 2) m) m with hnil | ⟨hhd, hne⟩
        · rw [hnil] at hy
          simp at hy
        · rw [hhd] at hy
          simp at hy
          subst hy
          have h2 : t * 2 < m := by
            rcases Nat.lt_or_ge (t * 2) m with h | h
            · exact h
            · exact absurd (Nat.min_eq_right h) hne
          refine ⟨?_, Nat.min_le_right _ _, rfl⟩
          rw [Nat.min_eq_left (by omega)]
          omega

theorem waitLoop_timeout (os : List Bool) :
    ∀ t m, (∀ o ∈ os, o = false) → (waitLoop os t m).res ≠ .pending →
      (waitLoop os t m).res = .failed .timeout := by
  induction os with
  | nil =>
    intro t m _ hpend
    exact absurd rfl hpend
  | cons o rest ih =>
    intro t m hall hpend
    have ho : o = false := hall o (List.mem_cons_self o rest)
    subst ho
    by_cases ht : t = m
    · simp [waitLoop, ht]
    · have hre : (waitLoop (false :: rest) t m).res
          = (waitLoop rest (min (t * 2) m) m).res := by
        simp [waitLoop, ht]
      rw [hre] at hpend ⊢
      exact ih (min (t * 2) m) m (fun x hx => hall x (List.mem_cons_of_mem _ hx)) hpend

theorem listenGo_pings (n : Nat) :
    ∀ (tail : List ReadStep) (acc ws : List String),
      listenGo (List.replicate n (.noData true) ++ tail) true acc ws
        = listenGo tail true acc (List.replicate n pingMsg ++ ws) := by
  induction n with
  | zero => intro tail acc ws; simp
  | succ k ih =>
    intro tail acc ws
    rw [List.replicate_succ, List.cons_append]
    show listenGo (List.replicate k (.noData true) ++ tail) true acc (pingMsg :: ws)
      = listenGo tail true acc (List.replicate (k + 1) pingMsg ++ ws)
    rw [ih tail acc (pingMsg :: ws), List.replicate_succ', List.append_assoc]
    rfl

/-! ### Claim theorems -/

/-- Claim C1: a terminated frame whose 4-byte big-endian length prefix does
not equal its content length is never returned as a decoded payload by the
decoder in its constructed state; the offending bytes are discarded
(`Ok(None)` and the corrupt frame removed from the buffer), and the next
well-formed frame appended after it is decoded by the following call. -/
theorem C1_length_mismatch_never_surfaced (c pre g : List Nat)
    (hc10 : ∀ x ∈ c, x ≠ 10) (hpre10 : ∀ x ∈ pre, x ≠ 10) (hpre4 : pre.length = 4)
    (hmis : readBe32 pre ≠ c.length)
    (hg10 : ∀ x ∈ g, x ≠ 10) (hgpre : ∀ x ∈ be32 g.length, x ≠ 10)
    (hgcr : g.getLast? ≠ some 13) (hgu : validUtf8 g = true)
    (hg32 : g.length < 2 ^ 32)
    (hbig : c.length + 5 + (g.length + 5) ≤ USIZE_MAX) :
    decode EventLinesCodec.new (c ++ pre ++ 10 :: encode g)
        = ⟨.ok none, EventLinesCodec.new, encode g⟩ ∧
      decode EventLinesCodec.new (encode g)
        = ⟨.ok (some g), ⟨0, USIZE_MAX, false⟩, []⟩ := by
  constructor
  · exact decode_corrupt_frame c pre (encode g) hc10 hpre10 hpre4 hmis
      (by rw [encode_length]; omega)
  · exact decode_good_frame 0 USIZE_MAX g hg10 hgpre hgcr hgu hg32 (by omega)
      (by rw [satAdd1_usize, USIZE_MAX_eq]; omega)

/-- Witness for C1 at a concrete corrupt frame (content `"A"`, declared
length 9) followed by the frame encoding `"hi"`. -/
theorem C1_length_mismatch_never_surfaced_witness :
    decode EventLinesCodec.new ([65] ++ [0, 0, 0, 9] ++ 10 :: encode [104, 105])
        = ⟨.ok none, EventLinesCodec.new, encode [104, 105]⟩ ∧
      decode EventLinesCodec.new (encode [104, 105])
        = ⟨.ok (some [104, 105]), ⟨0, USIZE_MAX, false⟩, []⟩ :=
  C1_length_mismatch_never_surfaced [65] [0, 0, 0, 9] [104, 105]
    (by decide) (by decide) (by decide) (by decide) (by decide) (by decide)
    (by decide) (by decide) (by decide) (by decide)

/-- Counterexample to claim C2 as stated: for the one-byte text payload
`"\r"` (byte 13), feeding `encode "\r"` to a fresh decoder in one feed
yields the empty payload, not `"\r"`: the decoder strips the trailing
carriage return. -/
theorem C2_roundtrip_counterexample :
    (feedAll EventLinesCodec.new [] [encode [13]]).outs = [[]] ∧
      ([[]] : List (List Nat)) ≠ [[13]] := by
  constructor
  · decide
  · decide

/-- Claim C2 (amended): the round trip holds for payloads that contain no
newline byte, do not end in a carriage-return byte, have length below
`2^32`, and whose big-endian length bytes contain no newline byte; then
any chunking of `encode p` fed to a fresh decoder yields exactly `[p]`. -/
theorem C2_roundtrip_amended (p : List Nat) (chunks : List (List Nat))
    (h10 : ∀ x ∈ p, x ≠ 10) (hpre : ∀ x ∈ be32 p.length, x ≠ 10)
    (hcr : p.getLast? ≠ some 13) (hu : validUtf8 p = true)
    (h32 : p.length < 2 ^ 32)
    (hch : chunks.flatten = encode p) :
    feedAll EventLinesCodec.new [] chunks
      = ⟨[p], ⟨0, USIZE_MAX, false⟩, [], none⟩ :=
  feed_roundtrip p h10 hpre hcr hu h32 chunks []
    (by rw [List.nil_append]; exact hch)
    (by simp [encode_length])

/-- Witness for the amended C2: the payload `"hello"` split across two
feeds round-trips to exactly itself. -/
theorem C2_roundtrip_amended_witness :
    feedAll EventLinesCodec.new [] [[104, 101, 108], [108, 111, 0, 0, 0, 5, 10]]
      = ⟨[[104, 101, 108, 108, 111]], ⟨0, USIZE_MAX, false⟩, [], none⟩ :=
  C2_roundtrip_amended [104, 101, 108, 108, 111]
    [[104, 101, 108], [108, 111, 0, 0, 0, 5, 10]]
    (by decide) (by decide) (by decide) (by decide) (by decide) (by decide)

/-- Counterexample to claim C3 as stated: with `$HOME` unresolvable,
`connect` does fail immediately (no sleep), but the surfaced error is
`ConnectionError::Timeout`, not the `SocketPath` variant. -/
theorem C3_setup_error_counterexample :
    connect (.err .notPresent) [true] 1 8 = ⟨.failed .timeout, []⟩ ∧
      ConnectionError.timeout
        ≠ .socketPath (.homeDirNotFound .notPresent) := by
  constructor
  · decide
  · decide

/-- Claim C3 (amended): if endpoint resolution fails, `connect` fails
immediately without any retry (no connection attempt consumed, no sleep):
`wait_connection` produces the `SocketPath` error before the loop, but
`connect`'s `let Ok(..) = .. else` discards it and surfaces
`ConnectionError::Timeout` to the caller. -/
theorem C3_setup_error_amended (e : VarError) (outcomes : List Bool) (t m : Nat) :
    wait_connection (.err e) outcomes t m
        = ⟨.failed (.socketPath (.homeDirNotFound e)), []⟩ ∧
      connect (.err e) outcomes t m = ⟨.failed .timeout, []⟩ :=
  ⟨rfl, rfl⟩

/-- Claim C4: when `listen` returns because the reader yielded a hard I/O
error, the result is that error, but the handler has NOT left the Running
state: `self.running` is still `true`, so `is_running()` returns `true`
(the `Err(e)` arm at `lib.rs:398-400` returns without clearing
`self.running`, unlike the ping-failure arm). -/
theorem C4_reader_error_leaves_running :
    (listenRun [.readFail]).res = .errRead ∧ is_running (listenRun [.readFail]) = true := by
  constructor
  · decide
  · decide

/-- Claim C5: along any failure run of `wait_connection`, successive slept
delays satisfy `d ≤ d'`, `d' ≤ max_bound`, and `d' = min(d * 2, max_bound)`,
and a terminating all-failure run surfaces `ConnectionError::Timeout`. -/
theorem C5_backoff_monotone_capped (s : String) (outcomes : List Bool) (t m : Nat) :
    List.Chain' (fun a b => a ≤ b ∧ b ≤ m ∧ b = min (a * 2) m)
      (wait_connection (.ok s) outcomes t m).sleeps ∧
    ((∀ o ∈ outcomes, o = false) →
      (wait_connection (.ok s) outcomes t m).res ≠ .pending →
      (wait_connection (.ok s) outcomes t m).res = .failed .timeout) :=
  ⟨waitLoop_chain outcomes t m, waitLoop_timeout outcomes t m⟩

/-- Witness for C5 on a concrete all-failure run (`t = 1`, `max = 4`,
three failed attempts: sleeps `[1, 2]`, then `Timeout`). -/
theorem C5_backoff_monotone_capped_witness :
    List.Chain' (fun a b => a ≤ b ∧ b ≤ 4 ∧ b = min (a * 2) 4)
      (wait_connection (.ok "home") [false, false, false] 1 4).sleeps ∧
    (wait_connection (.ok "home") [false, false, false] 1 4).res
      = .failed .timeout :=
  ⟨(C5_backoff_monotone_capped "home" [false, false, false] 1 4).1,
    (C5_backoff_monotone_capped "home" [false, false, false] 1 4).2
      (by decide) (by decide)⟩

/-- Claim C6: every read yielding "no data within timeout" causes exactly
one write of the literal ping payload; `listen` terminates with an I/O
error on that iteration if and only if that ping write fails, and
continues when it succeeds: after `n` successful ping rounds the loop is
still running with exactly `n` ping writes, and a first failing ping at
round `n + 1` ends the run with the error, `running = false`, exactly
`n + 1` ping writes, and the rest of the script unconsumed. -/
theorem C6_ping_per_timeout (n : Nat) (rest : List ReadStep) :
    listenRun (List.replicate n (.noData true))
        = ⟨.pending, true, [], List.replicate n pingMsg⟩ ∧
      listenRun (List.replicate n (.noData true) ++ .noData false :: rest)
        = ⟨.errPing, false, [], List.replicate (n + 1) pingMsg⟩ := by
  constructor
  · have h := listenGo_pings n [] [] []
    rw [List.append_nil] at h
    unfold listenRun
    rw [h]
    simp [listenGo]
  · have h := listenGo_pings n (.noData false :: rest) [] []
    unfold listenRun
    rw [h]
    simp [listenGo, List.replicate_succ']

/-- Claim C7 (amended): when the decoder finds a terminator and the
candidate line before it is shorter than the 4-byte length prefix, the
call returns no payload — but it is not a no-op: the candidate bytes and
the terminator are consumed and discarded, and later calls resume after
them. -/
theorem C7_short_line_amended (c R : List Nat) (n : Nat)
    (hc : ∀ x ∈ c, x ≠ 10) (hlt : c.length < 4) (hn : n ≤ c.length)
    (hbig : c.length + 1 + R.length ≤ USIZE_MAX) :
    decode ⟨n, USIZE_MAX, false⟩ (c ++ 10 :: R)
      = ⟨.ok none, ⟨0, USIZE_MAX, false⟩, R⟩ :=
  decode_short_line c R n hc hlt hn hbig

/-- Counterexample to claim C7 as stated: feeding just a terminator to a
fresh decoder returns no payload, yet the buffered byte is consumed — the
buffer afterwards is `[]`, not the original `[10]`. -/
theorem C7_short_line_counterexample :
    (decode EventLinesCodec.new [10]).res = .ok none ∧
      (decode EventLinesCodec.new [10]).buf = [] ∧ ([] : List Nat) ≠ [10] := by
  refine ⟨?_, ?_, ?_⟩
  · decide
  · decide
  · decide

/-- Witness for the amended C7 at `c = "A"`, remainder `"B"`. -/
theorem C7_short_line_amended_witness :
    decode ⟨0, USIZE_MAX, false⟩ ([65] ++ 10 :: [66])
      = ⟨.ok none, ⟨0, USIZE_MAX, false⟩, [66]⟩ :=
  C7_short_line_amended [65] [66] 0 (by decide) (by decide) (by decide) (by decide)

/-- Claim C8: with configured maximum `M`, buffered bytes exceeding `M`
with no terminator make that `decode` call fail with the "too long" error
and put the decoder into the discarding state; a subsequent call then
drops bytes up to and including the next terminator before resuming normal
decoding (here: decoding the following well-formed frame). -/
theorem C8_overlong_then_discard (M : Nat) (J g : List Nat)
    (hJ10 : ∀ x ∈ J, x ≠ 10) (hJM : J.length > M)
    (hg10 : ∀ x ∈ g, x ≠ 10) (hgpre : ∀ x ∈ be32 g.length, x ≠ 10)
    (hgcr : g.getLast? ≠ some 13) (hgu : validUtf8 g = true)
    (hg32 : g.length < 2 ^ 32) (hgM : g.length + 4 < satAdd1 M) :
    decode ⟨0, M, false⟩ J = ⟨.err .maxLineLengthExceeded, ⟨0, M, true⟩, J⟩ ∧
      decode ⟨0, M, true⟩ (J ++ 10 :: encode g)
        = ⟨.ok (some g), ⟨0, M, false⟩, []⟩ := by
  constructor
  · exact decode_overlong J M 0 hJ10 hJM
  · exact decode_discard_then_frame M g hg10 hgpre hgcr hgu hg32 hgM
      J.length J rfl ((J ++ 10 :: encode g).length + 1) 0 hJ10 (Nat.zero_le _)
      (by rw [List.length_append, List.length_cons, encode_length]; omega)

/-- Witness for C8 with maximum 4, five junk bytes, and the empty-payload
frame appended after the recovery terminator. -/
theorem C8_overlong_then_discard_witness :
    decode ⟨0, 4, false⟩ [65, 65, 65, 65, 65]
        = ⟨.err .maxLineLengthExceeded, ⟨0, 4, true⟩, [65, 65, 65, 65, 65]⟩ ∧
      decode ⟨0, 4, true⟩ ([65, 65, 65, 65, 65] ++ 10 :: encode [])
        = ⟨.ok (some []), ⟨0, 4, false⟩, []⟩ :=
  C8_overlong_then_discard 4 [65, 65, 65, 65, 65] []
    (by decide) (by decide) (by decide) (by decide) (by decide) (by decide)
    (by decide) (by decide)

/-- Claim C9: a notification document whose `event_type` tag is not one of
the recognized snake_case variants parses successfully, yielding a
`NotificationEvent` whose `event_type` is the catch-all `Other` variant. -/
theorem C9_unknown_tag_parses_to_other (s : String) (h : s ∉ recognizedTags)
    (dt : Option String) (ts src : String) (msg md : Option String) :
    parseNotificationDoc ⟨s, dt, ts, src, msg, md⟩
      = .ok ⟨.other, dt, ts, src, msg, md⟩ := by
  have hne : ∀ t ∈ recognizedTags, ¬ s = t := fun t ht heq => h (heq ▸ ht)
  have htag : eventTypeOfTag s = .other := by
    unfold eventTypeOfTag
    rw [if_neg (hne _ (List.mem_cons_self _ _)),
      if_neg (hne _ (List.mem_cons_of_mem _ (List.mem_cons_self _ _))),
      if_neg (hne _ (List.mem_cons_of_mem _ (List.mem_cons_of_mem _ (List.mem_cons_self _ _)))),
      if_neg (hne _ (List.mem_cons_of_mem _ (List.mem_cons_of_mem _ (List.mem_cons_of_mem _ (List.mem_cons_self _ _))))),
      if_neg (hne _ (List.mem_cons_of_mem _ (List.mem_cons_of_mem _ (List.mem_cons_of_mem _ (List.mem_cons_of_mem _ (List.mem_cons_self _ _)))))),
      if_neg (hne _ (List.mem_cons_of_mem _ (List.mem_cons_of_mem _ (List.mem_cons_of_mem _ (List.mem_cons_of_mem _ (List.mem_cons_of_mem _ (List.mem_cons_self _ _))))))),
      if_neg (hne _ (List.mem_cons_of_mem _ (List.mem_cons_of_mem _ (List.mem_cons_of_mem _ (List.mem_cons_of_mem _ (List.mem_cons_of_mem _ (List.mem_cons_of_mem _ (List.mem_cons_self _ _)))))))),
      if_neg (hne _ (List.mem_cons_of_mem _ (List.mem_cons_of_mem _ (List.mem_cons_of_mem _ (List.mem_cons_of_mem _ (List.mem_cons_of_mem _ (List.mem_cons_of_mem _ (List.mem_cons_of_mem _ (List.mem_cons_self _ _))))))))),
      if_neg (hne _ (List.mem_cons_of_mem _ (List.mem_cons_of_mem _ (List.mem_cons_of_mem _ (List.mem_cons_of_mem _ (List.mem_cons_of_mem _ (List.mem_cons_of_mem _ (List.mem_cons_of_mem _ (List.mem_cons_of_mem _ (List.mem_cons_self _ _)))))))))),
      if_neg (hne _ (List.mem_cons_of_mem _ (List.mem_cons_of_mem _ (List.mem_cons_of_mem _ (List.mem_cons_of_mem _ (List.mem_cons_of_mem _ (List.mem_cons_of_mem _ (List.mem_cons_of_mem _ (List.mem_cons_of_mem _ (List.mem_cons_of_mem _ (List.mem_cons_self _ _))))))))))),
      if_neg (hne _ (List.mem_cons_of_mem _ (List.mem_cons_of_mem _ (List.mem_cons_of_mem _ (List.mem_cons_of_mem _ (List.mem_cons_of_mem _ (List.mem_cons_of_mem _ (List.mem_cons_of_mem _ (List.mem_cons_of_mem _ (List.mem_cons_of_mem _ (List.mem_cons_of_mem _ (List.mem_cons_self _ _)))))))))))),
      if_neg (hne _ (List.mem_cons_of_mem _ (List.mem_cons_of_mem _ (List.mem_cons_of_mem _ (List.mem_cons_of_mem _ (List.mem_cons_of_mem _ (List.mem_cons_of_mem _ (List.mem_cons_of_mem _ (List.mem_cons_of_mem _ (List.mem_cons_of_mem _ (List.mem_cons_of_mem _ (List.mem_cons_of_mem _ (List.mem_cons_self _ _))))))))))))),
      if_neg (hne _ (List.mem_cons_of_mem _ (List.mem_cons_of_mem _ (List.mem_cons_of_mem _ (List.mem_cons_of_mem _ (List.mem_cons_of_mem _ (List.mem_cons_of_mem _ (List.mem_cons_of_mem _ (List.mem_cons_of_mem _ (List.mem_cons_of_mem _ (List.mem_cons_of_mem _ (List.mem_cons_of_mem _ (List.mem_cons_of_mem _ (List.mem_cons_self _ _)))))))))))))),
      if_neg (hne _ (List.mem_cons_of_mem _ (List.mem_cons_of_mem _ (List.mem_cons_of_mem _ (List.mem_cons_of_mem _ (List.mem_cons_of_mem _ (List.mem_cons_of_mem _ (List.mem_cons_of_mem _ (List.mem_cons_of_mem _ (List.mem_cons_of_mem _ (List.mem_cons_of_mem _ (List.mem_cons_of_mem _ (List.mem_cons_of_mem _ (List.mem_cons_of_mem _ (List.mem_cons_self _ _))))))))))))))),
      if_neg (hne _ (List.mem_cons_of_mem _ (List.mem_cons_of_mem _ (List.mem_cons_of_mem _ (List.mem_cons_of_mem _ (List.mem_cons_of_mem _ (List.mem_cons_of_mem _ (List.mem_cons_of_mem _ (List.mem_cons_of_mem _ (List.mem_cons_of_mem _ (List.mem_cons_of_mem _ (List.mem_cons_of_mem _ (List.mem_cons_of_mem _ (List.mem_cons_of_mem _ (List.mem_cons_of_mem _ (List.mem_cons_self _ _)))))))))))))))),
      if_neg (hne _ (List.mem_cons_of_mem _ (List.mem_cons_of_mem _ (List.mem_cons_of_mem _ (List.mem_cons_of_mem _ (List.mem_cons_of_mem _ (List.mem_cons_of_mem _ (List.mem_cons_of_mem _ (List.mem_cons_of_mem _ (List.mem_cons_of_mem _ (List.mem_cons_of_mem _ (List.mem_cons_of_mem _ (List.mem_cons_of_mem _ (List.mem_cons_of_mem _ (List.mem_cons_of_mem _ (List.mem_cons_of_mem _ (List.mem_cons_self _ _))))))))))))))))),
      if_neg (hne _ (List.mem_cons_of_mem _ (List.mem_cons_of_mem _ (List.mem_cons_of_mem _ (List.mem_cons_of_mem _ (List.mem_cons_of_mem _ (List.mem_cons_of_mem _ (List.mem_cons_of_mem _ (List.mem_cons_of_mem _ (List.mem_cons_of_mem _ (List.mem_cons_of_mem _ (List.mem_cons_of_mem _ (List.mem_cons_of_mem _ (List.mem_cons_of_mem _ (List.mem_cons_of_mem _ (List.mem_cons_of_mem _ (List.mem_cons_of_mem _ (List.mem_cons_self _ _)))))))))))))))))),
      if_neg (hne _ (List.mem_cons_of_mem _ (List.mem_cons_of_mem _ (List.mem_cons_of_mem _ (List.mem_cons_of_mem _ (List.mem_cons_of_mem _ (List.mem_cons_of_mem _ (List.mem_cons_of_mem _ (List.mem_cons_of_mem _ (List.mem_cons_of_mem _ (List.mem_cons_of_mem _ (List.mem_cons_of_mem _ (List.mem_cons_of_mem _ (List.mem_cons_of_mem _ (List.mem_cons_of_mem _ (List.mem_cons_of_mem _ (List.mem_cons_of_mem _ (List.mem_cons_of_mem _ (List.mem_cons_self _ _))))))))))))))))))),
      if_neg (hne _ (List.mem_cons_of_mem _ (List.mem_cons_of_mem _ (List.mem_cons_of_mem _ (List.mem_cons_of_mem _ (List.mem_cons_of_mem _ (List.mem_cons_of_mem _ (List.mem_cons_of_mem _ (List.mem_cons_of_mem _ (List.mem_cons_of_mem _ (List.mem_cons_of_mem _ (List.mem_cons_of_mem _ (List.mem_cons_of_mem _ (List.mem_cons_of_mem _ (List.mem_cons_of_mem _ (List.mem_cons_of_mem _ (List.mem_cons_of_mem _ (List.mem_cons_of_mem _ (List.mem_cons_of_mem _ (List.mem_cons_self _ _)))))))))))))))))))),
      if_neg (hne _ (List.mem_cons_of_mem _ (List.mem_cons_of_mem _ (List.mem_cons_of_mem _ (List.mem_cons_of_mem _ (List.mem_cons_of_mem _ (List.mem_cons_of_mem _ (List.mem_cons_of_mem _ (List.mem_cons_of_mem _ (List.mem_cons_of_mem _ (List.mem_cons_of_mem _ (List.mem_cons_of_mem _ (List.mem_cons_of_mem _ (List.mem_cons_of_mem _ (List.mem_cons_of_mem _ (List.mem_cons_of_mem _ (List.mem_cons_of_mem _ (List.mem_cons_of_mem _ (List.mem_cons_of_mem _ (List.mem_cons_of_mem _ (List.mem_cons_self _ _))))))))))))))))))))),
      if_neg (hne _ (List.mem_cons_of_mem _ (List.mem_cons_of_mem _ (List.mem_cons_of_mem _ (List.mem_cons_of_mem _ (List.mem_cons_of_mem _ (List.mem_cons_of_mem _ (List.mem_cons_of_mem _ (List.mem_cons_of_mem _ (List.mem_cons_of_mem _ (List.mem_cons_of_mem _ (List.mem_cons_of_mem _ (List.mem_cons_of_mem _ (List.mem_cons_of_mem _ (List.mem_cons_of_mem _ (List.mem_cons_of_mem _ (List.mem_cons_of_mem _ (List.mem_cons_of_mem _ (List.mem_cons_of_mem _ (List.mem_cons_of_mem _ (List.mem_cons_of_mem _ (List.mem_cons_self _ _)))))))))))))))))))))),
      if_neg (hne _ (List.mem_cons_of_mem _ (List.mem_cons_of_mem _ (List.mem_cons_of_mem _ (List.mem_cons_of_mem _ (List.mem_cons_of_mem _ (List.mem_cons_of_mem _ (List.mem_cons_of_mem _ (List.mem_cons_of_mem _ (List.mem_cons_of_mem _ (List.mem_cons_of_mem _ (List.mem_cons_of_mem _ (List.mem_cons_of_mem _ (List.mem_cons_of_mem _ (List.mem_cons_of_mem _ (List.mem_cons_of_mem _ (List.mem_cons_of_mem _ (List.mem_cons_of_mem _ (List.mem_cons_of_mem _ (List.mem_cons_of_mem _ (List.mem_cons_of_mem _ (List.mem_cons_of_mem _ (List.mem_cons_self _ _))))))))))))))))))))))),
      if_neg (hne _ (List.mem_cons_of_mem _ (List.mem_cons_of_mem _ (List.mem_cons_of_mem _ (List.mem_cons_of_mem _ (List.mem_cons_of_mem _ (List.mem_cons_of_mem _ (List.mem_cons_of_mem _ (List.mem_cons_of_mem _ (List.mem_cons_of_mem _ (List.mem_cons_of_mem _ (List.mem_cons_of_mem _ (List.mem_cons_of_mem _ (List.mem_cons_of_mem _ (List.mem_cons_of_mem _ (List.mem_cons_of_mem _ (List.mem_cons_of_mem _ (List.mem_cons_of_mem _ (List.mem_cons_of_mem _ (List.mem_cons_of_mem _ (List.mem_cons_of_mem _ (List.mem_cons_of_mem _ (List.mem_cons_of_mem _ (List.mem_cons_self _ _)))))))))))))))))))))))),
      if_neg (hne _ (List.mem_cons_of_mem _ (List.mem_cons_of_mem _ (List.mem_cons_of_mem _ (List.mem_cons_of_mem _ (List.mem_cons_of_mem _ (List.mem_cons_of_mem _ (List.mem_cons_of_mem _ (List.mem_cons_of_mem _ (List.mem_cons_of_mem _ (List.mem_cons_of_mem _ (List.mem_cons_of_mem _ (List.mem_cons_of_mem _ (List.mem_cons_of_mem _ (List.mem_cons_of_mem _ (List.mem_cons_of_mem _ (List.mem_cons_of_mem _ (List.mem_cons_of_mem _ (List.mem_cons_of_mem _ (List.mem_cons_of_mem _ (List.mem_cons_of_mem _ (List.mem_cons_of_mem _ (List.mem_cons_of_mem _ (List.mem_cons_of_mem _ (List.mem_cons_self _ _))))))))))))))))))))))))),
      if_neg (hne _ (List.mem_cons_of_mem _ (List.mem_cons_of_mem _ (List.mem_cons_of_mem _ (List.mem_cons_of_mem _ (List.mem_cons_of_mem _ (List.mem_cons_of_mem _ (List.mem_cons_of_mem _ (List.mem_cons_of_mem _ (List.mem_cons_of_mem _ (List.mem_cons_of_mem _ (List.mem_cons_of_mem _ (List.mem_cons_of_mem _ (List.mem_cons_of_mem _ (List.mem_cons_of_mem _ (List.mem_cons_of_mem _ (List.mem_cons_of_mem _ (List.mem_cons_of_mem _ (List.mem_cons_of_mem _ (List.mem_cons_of_mem _ (List.mem_cons_of_mem _ (List.mem_cons_of_mem _ (List.mem_cons_of_mem _ (List.mem_cons_of_mem _ (List.mem_cons_of_mem _ (List.mem_cons_self _ _)))))))))))))))))))))))))),
      if_neg (hne _ (List.mem_cons_of_mem _ (List.mem_cons_of_mem _ (List.mem_cons_of_mem _ (List.mem_cons_of_mem _ (List.mem_cons_of_mem _ (List.mem_cons_of_mem _ (List.mem_cons_of_mem _ (List.mem_cons_of_mem _ (List.mem_cons_of_mem _ (List.mem_cons_of_mem _ (List.mem_cons_of_mem _ (List.mem_cons_of_mem _ (List.mem_cons_of_mem _ (List.mem_cons_of_mem _ (List.mem_cons_of_mem _ (List.mem_cons_of_mem _ (List.mem_cons_of_mem _ (List.mem_cons_of_mem _ (List.mem_cons_of_mem _ (List.mem_cons_of_mem _ (List.mem_cons_of_mem _ (List.mem_cons_of_mem _ (List.mem_cons_of_mem _ (List.mem_cons_of_mem _ (List.mem_cons_of_mem _ (List.mem_cons_self _ _))))))))))))))))))))))))))),
      if_neg (hne _ (List.mem_cons_of_mem _ (List.mem_cons_of_mem _ (List.mem_cons_of_mem _ (List.mem_cons_of_mem _ (List.mem_cons_of_mem _ (List.mem_cons_of_mem _ (List.mem_cons_of_mem _ (List.mem_cons_of_mem _ (List.mem_cons_of_mem _ (List.mem_cons_of_mem _ (List.mem_cons_of_mem _ (List.mem_cons_of_mem _ (List.mem_cons_of_mem _ (List.mem_cons_of_mem _ (List.mem_cons_of_mem _ (List.mem_cons_of_mem _ (List.mem_cons_of_mem _ (List.mem_cons_of_mem _ (List.mem_cons_of_mem _ (List.mem_cons_of_mem _ (List.mem_cons_of_mem _ (List.mem_cons_of_mem _ (List.mem_cons_of_mem _ (List.mem_cons_of_mem _ (List.mem_cons_of_mem _ (List.mem_cons_of_mem _ (List.mem_cons_self _ _)))))))))))))))))))))))))))),
      if_neg (hne _ (List.mem_cons_of_mem _ (List.mem_cons_of_mem _ (List.mem_cons_of_mem _ (List.mem_cons_of_mem _ (List.mem_cons_of_mem _ (List.mem_cons_of_mem _ (List.mem_cons_of_mem _ (List.mem_cons_of_mem _ (List.mem_cons_of_mem _ (List.mem_cons_of_mem _ (List.mem_cons_of_mem _ (List.mem_cons_of_mem _ (List.mem_cons_of_mem _ (List.mem_cons_of_mem _ (List.mem_cons_of_mem _ (List.mem_cons_of_mem _ (List.mem_cons_of_mem _ (List.mem_cons_of_mem _ (List.mem_cons_of_mem _ (List.mem_cons_of_mem _ (List.mem_cons_of_mem _ (List.mem_cons_of_mem _ (List.mem_cons_of_mem _ (List.mem_cons_of_mem _ (List.mem_cons_of_mem _ (List.mem_cons_of_mem _ (List.mem_cons_of_mem _ (List.mem_cons_self _ _))))))))))))))))))))))))))))),
      if_neg (hne _ (List.mem_cons_of_mem _ (List.mem_cons_of_mem _ (List.mem_cons_of_mem _ (List.mem_cons_of_mem _ (List.mem_cons_of_mem _ (List.mem_cons_of_mem _ (List.mem_cons_of_mem _ (List.mem_cons_of_mem _ (List.mem_cons_of_mem _ (List.mem_cons_of_mem _ (List.mem_cons_of_mem _ (List.mem_cons_of_mem _ (List.mem_cons_of_mem _ (List.mem_cons_of_mem _ (List.mem_cons_of_mem _ (List.mem_cons_of_mem _ (List.mem_cons_of_mem _ (List.mem_cons_of_mem _ (List.mem_cons_of_mem _ (List.mem_cons_of_mem _ (List.mem_cons_of_mem _ (List.mem_cons_of_mem _ (List.mem_cons_of_mem _ (List.mem_cons_of_mem _ (List.mem_cons_of_mem _ (List.mem_cons_of_mem _ (List.mem_cons_of_mem _ (List.mem_cons_of_mem _ (List.mem_cons_self _ _)))))))))))))))))))))))))))))),
      if_neg (hne _ (List.mem_cons_of_mem _ (List.mem_cons_of_mem _ (List.mem_cons_of_mem _ (List.mem_cons_of_mem _ (List.mem_cons_of_mem _ (List.mem_cons_of_mem _ (List.mem_cons_of_mem _ (List.mem_cons_of_mem _ (List.mem_cons_of_mem _ (List.mem_cons_of_mem _ (List.mem_cons_of_mem _ (List.mem_cons_of_mem _ (List.mem_cons_of_mem _ (List.mem_cons_of_mem _ (List.mem_cons_of_mem _ (List.mem_cons_of_mem _ (List.mem_cons_of_mem _ (List.mem_cons_of_mem _ (List.mem_cons_of_mem _ (List.mem_cons_of_mem _ (List.mem_cons_of_mem _ (List.mem_cons_of_mem _ (List.mem_cons_of_mem _ (List.mem_cons_of_mem _ (List.mem_cons_of_mem _ (List.mem_cons_of_mem _ (List.mem_cons_of_mem _ (List.mem_cons_of_mem _ (List.mem_cons_of_mem _ (List.mem_cons_self _ _))))))))))))))))))))))))))))))),
      if_neg (hne _ (List.mem_cons_of_mem _ (List.mem_cons_of_mem _ (List.mem_cons_of_mem _ (List.mem_cons_of_mem _ (List.mem_cons_of_mem _ (List.mem_cons_of_mem _ (List.mem_cons_of_mem _ (List.mem_cons_of_mem _ (List.mem_cons_of_mem _ (List.mem_cons_of_mem _ (List.mem_cons_of_mem _ (List.mem_cons_of_mem _ (List.mem_cons_of_mem _ (List.mem_cons_of_mem _ (List.mem_cons_of_mem _ (List.mem_cons_of_mem _ (List.mem_cons_of_mem _ (List.mem_cons_of_mem _ (List.mem_cons_of_mem _ (List.mem_cons_of_mem _ (List.mem_cons_of_mem _ (List.mem_cons_of_mem _ (List.mem_cons_of_mem _ (List.mem_cons_of_mem _ (List.mem_cons_of_mem _ (List.mem_cons_of_mem _ (List.mem_cons_of_mem _ (List.mem_cons_of_mem _ (List.mem_cons_of_mem _ (List.mem_cons_of_mem _ (List.mem_cons_self _ _)))))))))))))))))))))))))))))))),
      if_neg (hne _ (List.mem_cons_of_mem _ (List.mem_cons_of_mem _ (List.mem_cons_of_mem _ (List.mem_cons_of_mem _ (List.mem_cons_of_mem _ (List.mem_cons_of_mem _ (List.mem_cons_of_mem _ (List.mem_cons_of_mem _ (List.mem_cons_of_mem _ (List.mem_cons_of_mem _ (List.mem_cons_of_mem _ (List.mem_cons_of_mem _ (List.mem_cons_of_mem _ (List.mem_cons_of_mem _ (List.mem_cons_of_mem _ (List.mem_cons_of_mem _ (List.mem_cons_of_mem _ (List.mem_cons_of_mem _ (List.mem_cons_of_mem _ (List.mem_cons_of_mem _ (List.mem_cons_of_mem _ (List.mem_cons_of_mem _ (List.mem_cons_of_mem _ (List.mem_cons_of_mem _ (List.mem_cons_of_mem _ (List.mem_cons_of_mem _ (List.mem_cons_of_mem _ (List.mem_cons_of_mem _ (List.mem_cons_of_mem _ (List.mem_cons_of_mem _ (List.mem_cons_of_mem _ (List.mem_cons_self _ _))))))))))))))))))))))))))))))))),
      if_neg (hne _ (List.mem_cons_of_mem _ (List.mem_cons_of_mem _ (List.mem_cons_of_mem _ (List.mem_cons_of_mem _ (List.mem_cons_of_mem _ (List.mem_cons_of_mem _ (List.mem_cons_of_mem _ (List.mem_cons_of_mem _ (List.mem_cons_of_mem _ (List.mem_cons_of_mem _ (List.mem_cons_of_mem _ (List.mem_cons_of_mem _ (List.mem_cons_of_mem _ (List.mem_cons_of_mem _ (List.mem_cons_of_mem _ (List.mem_cons_of_mem _ (List.mem_cons_of_mem _ (List.mem_cons_of_mem _ (List.mem_cons_of_mem _ (List.mem_cons_of_mem _ (List.mem_cons_of_mem _ (List.mem_cons_of_mem _ (List.mem_cons_of_mem _ (List.mem_cons_of_mem _ (List.mem_cons_of_mem _ (List.mem_cons_of_mem _ (List.mem_cons_of_mem _ (List.mem_cons_of_mem _ (List.mem_cons_of_mem _ (List.mem_cons_of_mem _ (List.mem_cons_of_mem _ (List.mem_cons_of_mem _ (List.mem_cons_self _ _)))))))))))))))))))))))))))))))))),
      if_neg (hne _ (List.mem_cons_of_mem _ (List.mem_cons_of_mem _ (List.mem_cons_of_mem _ (List.mem_cons_of_mem _ (List.mem_cons_of_mem _ (List.mem_cons_of_mem _ (List.mem_cons_of_mem _ (List.mem_cons_of_mem _ (List.mem_cons_of_mem _ (List.mem_cons_of_mem _ (List.mem_cons_of_mem _ (List.mem_cons_of_mem _ (List.mem_cons_of_mem _ (List.mem_cons_of_mem _ (List.mem_cons_of_mem _ (List.mem_cons_of_mem _ (List.mem_cons_of_mem _ (List.mem_cons_of_mem _ (List.mem_cons_of_mem _ (List.mem_cons_of_mem _ (List.mem_cons_of_mem _ (List.mem_cons_of_mem _ (List.mem_cons_of_mem _ (List.mem_cons_of_mem _ (List.mem_cons_of_mem _ (List.mem_cons_of_mem _ (List.mem_cons_of_mem _ (List.mem_cons_of_mem _ (List.mem_cons_of_mem _ (List.mem_cons_of_mem _ (List.mem_cons_of_mem _ (List.mem_cons_of_mem _ (List.mem_cons_of_mem _ (List.mem_cons_self _ _))))))))))))))))))))))))))))))))))),
      if_neg (hne _ (List.mem_cons_of_mem _ (List.mem_cons_of_mem _ (List.mem_cons_of_mem _ (List.mem_cons_of_mem _ (List.mem_cons_of_mem _ (List.mem_cons_of_mem _ (List.mem_cons_of_mem _ (List.mem_cons_of_mem _ (List.mem_cons_of_mem _ (List.mem_cons_of_mem _ (List.mem_cons_of_mem _ (List.mem_cons_of_mem _ (List.mem_cons_of_mem _ (List.mem_cons_of_mem _ (List.mem_cons_of_mem _ (List.mem_cons_of_mem _ (List.mem_cons_of_mem _ (List.mem_cons_of_mem _ (List.mem_cons_of_mem _ (List.mem_cons_of_mem _ (List.mem_cons_of_mem _ (List.mem_cons_of_mem _ (List.mem_cons_of_mem _ (List.mem_cons_of_mem _ (List.mem_cons_of_mem _ (List.mem_cons_of_mem _ (List.mem_cons_of_mem _ (List.mem_cons_of_mem _ (List.mem_cons_of_mem _ (List.mem_cons_of_mem _ (List.mem_cons_of_mem _ (List.mem_cons_of_mem _ (List.mem_cons_of_mem _ (List.mem_cons_of_mem _ (List.mem_cons_self _ _)))))))))))))))))))))))))))))))))))),
      if_neg (hne _ (List.mem_cons_of_mem _ (List.mem_cons_of_mem _ (List.mem_cons_of_mem _ (List.mem_cons_of_mem _ (List.mem_cons_of_mem _ (List.mem_cons_of_mem _ (List.mem_cons_of_mem _ (List.mem_cons_of_mem _ (List.mem_cons_of_mem _ (List.mem_cons_of_mem _ (List.mem_cons_of_mem _ (List.mem_cons_of_mem _ (List.mem_cons_of_mem _ (List.mem_cons_of_mem _ (List.mem_cons_of_mem _ (List.mem_cons_of_mem _ (List.mem_cons_of_mem _ (List.mem_cons_of_mem _ (List.mem_cons_of_mem _ (List.mem_cons_of_mem _ (List.mem_cons_of_mem _ (List.mem_cons_of_mem _ (List.mem_cons_of_mem _ (List.mem_cons_of_mem _ (List.mem_cons_of_mem _ (List.mem_cons_of_mem _ (List.mem_cons_of_mem _ (List.mem_cons_of_mem _ (List.mem_cons_of_mem _ (List.mem_cons_of_mem _ (List.mem_cons_of_mem _ (List.mem_cons_of_mem _ (List.mem_cons_of_mem _ (List.mem_cons_of_mem _ (List.mem_cons_of_mem _ (List.mem_cons_self _ _))))))))))))))))))))))))))))))))))))),
      if_neg (hne _ (List.mem_cons_of_mem _ (List.mem_cons_of_mem _ (List.mem_cons_of_mem _ (List.mem_cons_of_mem _ (List.mem_cons_of_mem _ (List.mem_cons_of_mem _ (List.mem_cons_of_mem _ (List.mem_cons_of_mem _ (List.mem_cons_of_mem _ (List.mem_cons_of_mem _ (List.mem_cons_of_mem _ (List.mem_cons_of_mem _ (List.mem_cons_of_mem _ (List.mem_cons_of_mem _ (List.mem_cons_of_mem _ (List.mem_cons_of_mem _ (List.mem_cons_of_mem _ (List.mem_cons_of_mem _ (List.mem_cons_of_mem _ (List.mem_cons_of_mem _ (List.mem_cons_of_mem _ (List.mem_cons_of_mem _ (List.mem_cons_of_mem _ (List.mem_cons_of_mem _ (List.mem_cons_of_mem _ (List.mem_cons_of_mem _ (List.mem_cons_of_mem _ (List.mem_cons_of_mem _ (List.mem_cons_of_mem _ (List.mem_cons_of_mem _ (List.mem_cons_of_mem _ (List.mem_cons_of_mem _ (List.mem_cons_of_mem _ (List.mem_cons_of_mem _ (List.mem_cons_of_mem _ (List.mem_cons_of_mem _ (List.mem_cons_self _ _)))))))))))))))))))))))))))))))))))))),
      if_neg (hne _ (List.mem_cons_of_mem _ (List.mem_cons_of_mem _ (List.mem_cons_of_mem _ (List.mem_cons_of_mem _ (List.mem_cons_of_mem _ (List.mem_cons_of_mem _ (List.mem_cons_of_mem _ (List.mem_cons_of_mem _ (List.mem_cons_of_mem _ (List.mem_cons_of_mem _ (List.mem_cons_of_mem _ (List.mem_cons_of_mem _ (List.mem_cons_of_mem _ (List.mem_cons_of_mem _ (List.mem_cons_of_mem _ (List.mem_cons_of_mem _ (List.mem_cons_of_mem _ (List.mem_cons_of_mem _ (List.mem_cons_of_mem _ (List.mem_cons_of_mem _ (List.mem_cons_of_mem _ (List.mem_cons_of_mem _ (List.mem_cons_of_mem _ (List.mem_cons_of_mem _ (List.mem_cons_of_mem _ (List.mem_cons_of_mem _ (List.mem_cons_of_mem _ (List.mem_cons_of_mem _ (List.mem_cons_of_mem _ (List.mem_cons_of_mem _ (List.mem_cons_of_mem _ (List.mem_cons_of_mem _ (List.mem_cons_of_mem _ (List.mem_cons_of_mem _ (List.mem_cons_of_mem _ (List.mem_cons_of_mem _ (List.mem_cons_of_mem _ (List.mem_cons_self _ _))))))))))))))))))))))))))))))))))))))),
      if_neg (hne _ (List.mem_cons_of_mem _ (List.mem_cons_of_mem _ (List.mem_cons_of_mem _ (List.mem_cons_of_mem _ (List.mem_cons_of_mem _ (List.mem_cons_of_mem _ (List.mem_cons_of_mem _ (List.mem_cons_of_mem _ (List.mem_cons_of_mem _ (List.mem_cons_of_mem _ (List.mem_cons_of_mem _ (List.mem_cons_of_mem _ (List.mem_cons_of_mem _ (List.mem_cons_of_mem _ (List.mem_cons_of_mem _ (List.mem_cons_of_mem _ (List.mem_cons_of_mem _ (List.mem_cons_of_mem _ (List.mem_cons_of_mem _ (List.mem_cons_of_mem _ (List.mem_cons_of_mem _ (List.mem_cons_of_mem _ (List.mem_cons_of_mem _ (List.mem_cons_of_mem _ (List.mem_cons_of_mem _ (List.mem_cons_of_mem _ (List.mem_cons_of_mem _ (List.mem_cons_of_mem _ (List.mem_cons_of_mem _ (List.mem_cons_of_mem _ (List.mem_cons_of_mem _ (List.mem_cons_of_mem _ (List.mem_cons_of_mem _ (List.mem_cons_of_mem _ (List.mem_cons_of_mem _ (List.mem_cons_of_mem _ (List.mem_cons_of_mem _ (List.mem_cons_of_mem _ (List.mem_cons_self _ _)))))))))))))))))))))))))))))))))))))))),
      if_neg (hne _ (List.mem_cons_of_mem _ (List.mem_cons_of_mem _ (List.mem_cons_of_mem _ (List.mem_cons_of_mem _ (List.mem_cons_of_mem _ (List.mem_cons_of_mem _ (List.mem_cons_of_mem _ (List.mem_cons_of_mem _ (List.mem_cons_of_mem _ (List.mem_cons_of_mem _ (List.mem_cons_of_mem _ (List.mem_cons_of_mem _ (List.mem_cons_of_mem _ (List.mem_cons_of_mem _ (List.mem_cons_of_mem _ (List.mem_cons_of_mem _ (List.mem_cons_of_mem _ (List.mem_cons_of_mem _ (List.mem_cons_of_mem _ (List.mem_cons_of_mem _ (List.mem_cons_of_mem _ (List.mem_cons_of_mem _ (List.mem_cons_of_mem _ (List.mem_cons_of_mem _ (List.mem_cons_of_mem _ (List.mem_cons_of_mem _ (List.mem_cons_of_mem _ (List.mem_cons_of_mem _ (List.mem_cons_of_mem _ (List.mem_cons_of_mem _ (List.mem_cons_of_mem _ (List.mem_cons_of_mem _ (List.mem_cons_of_mem _ (List.mem_cons_of_mem _ (List.mem_cons_of_mem _ (List.mem_cons_of_mem _ (List.mem_cons_of_mem _ (List.mem_cons_of_mem _ (List.mem_cons_of_mem _ (List.mem_cons_self _ _))))))))))))))))))))))))))))))))))))))))),
      if_neg (hne _ (List.mem_cons_of_mem _ (List.mem_cons_of_mem _ (List.mem_cons_of_mem _ (List.mem_cons_of_mem _ (List.mem_cons_of_mem _ (List.mem_cons_of_mem _ (List.mem_cons_of_mem _ (List.mem_cons_of_mem _ (List.mem_cons_of_mem _ (List.mem_cons_of_mem _ (List.mem_cons_of_mem _ (List.mem_cons_of_mem _ (List.mem_cons_of_mem _ (List.mem_cons_of_mem _ (List.mem_cons_of_mem _ (List.mem_cons_of_mem _ (List.mem_cons_of_mem _ (List.mem_cons_of_mem _ (List.mem_cons_of_mem _ (List.mem_cons_of_mem _ (List.mem_cons_of_mem _ (List.mem_cons_of_mem _ (List.mem_cons_of_mem _ (List.mem_cons_of_mem _ (List.mem_cons_of_mem _ (List.mem_cons_of_mem _ (List.mem_cons_of_mem _ (List.mem_cons_of_mem _ (List.mem_cons_of_mem _ (List.mem_cons_of_mem _ (List.mem_cons_of_mem _ (List.mem_cons_of_mem _ (List.mem_cons_of_mem _ (List.mem_cons_of_mem _ (List.mem_cons_of_mem _ (List.mem_cons_of_mem _ (List.mem_cons_of_mem _ (List.mem_cons_of_mem _ (List.mem_cons_of_mem _ (List.mem_cons_of_mem _ (List.mem_cons_self _ _)))))))))))))))))))))))))))))))))))))))))),
      if_neg (hne _ (List.mem_cons_of_mem _ (List.mem_cons_of_mem _ (List.mem_cons_of_mem _ (List.mem_cons_of_mem _ (List.mem_cons_of_mem _ (List.mem_cons_of_mem _ (List.mem_cons_of_mem _ (List.mem_cons_of_mem _ (List.mem_cons_of_mem _ (List.mem_cons_of_mem _ (List.mem_cons_of_mem _ (List.mem_cons_of_mem _ (List.mem_cons_of_mem _ (List.mem_cons_of_mem _ (List.mem_cons_of_mem _ (List.mem_cons_of_mem _ (List.mem_cons_of_mem _ (List.mem_cons_of_mem _ (List.mem_cons_of_mem _ (List.mem_cons_of_mem _ (List.mem_cons_of_mem _ (List.mem_cons_of_mem _ (List.mem_cons_of_mem _ (List.mem_cons_of_mem _ (List.mem_cons_of_mem _ (List.mem_cons_of_mem _ (List.mem_cons_of_mem _ (List.mem_cons_of_mem _ (List.mem_cons_of_mem _ (List.mem_cons_of_mem _ (List.mem_cons_of_mem _ (List.mem_cons_of_mem _ (List.mem_cons_of_mem _ (List.mem_cons_of_mem _ (List.mem_cons_of_mem _ (List.mem_cons_of_mem _ (List.mem_cons_of_mem _ (List.mem_cons_of_mem _ (List.mem_cons_of_mem _ (List.mem_cons_of_mem _ (List.mem_cons_of_mem _ (List.mem_cons_self _ _))))))))))))))))))))))))))))))))))))))))))),
      if_neg (hne _ (List.mem_cons_of_mem _ (List.mem_cons_of_mem _ (List.mem_cons_of_mem _ (List.mem_cons_of_mem _ (List.mem_cons_of_mem _ (List.mem_cons_of_mem _ (List.mem_cons_of_mem _ (List.mem_cons_of_mem _ (List.mem_cons_of_mem _ (List.mem_cons_of_mem _ (List.mem_cons_of_mem _ (List.mem_cons_of_mem _ (List.mem_cons_of_mem _ (List.mem_cons_of_mem _ (List.mem_cons_of_mem _ (List.mem_cons_of_mem _ (List.mem_cons_of_mem _ (List.mem_cons_of_mem _ (List.mem_cons_of_mem _ (List.mem_cons_of_mem _ (List.mem_cons_of_mem _ (List.mem_cons_of_mem _ (List.mem_cons_of_mem _ (List.mem_cons_of_mem _ (List.mem_cons_of_mem _ (List.mem_cons_of_mem _ (List.mem_cons_of_mem _ (List.mem_cons_of_mem _ (List.mem_cons_of_mem _ (List.mem_cons_of_mem _ (List.mem_cons_of_mem _ (List.mem_cons_of_mem _ (List.mem_cons_of_mem _ (List.mem_cons_of_mem _ (List.mem_cons_of_mem _ (List.mem_cons_of_mem _ (List.mem_cons_of_mem _ (List.mem_cons_of_mem _ (List.mem_cons_of_mem _ (List.mem_cons_of_mem _ (List.mem_cons_of_mem _ (List.mem_cons_of_mem _ (List.mem_cons_self _ _)))))))))))))))))))))))))))))))))))))))))))),
      if_neg (hne _ (List.mem_cons_of_mem _ (List.mem_cons_of_mem _ (List.mem_cons_of_mem _ (List.mem_cons_of_mem _ (List.mem_cons_of_mem _ (List.mem_cons_of_mem _ (List.mem_cons_of_mem _ (List.mem_cons_of_mem _ (List.mem_cons_of_mem _ (List.mem_cons_of_mem _ (List.mem_cons_of_mem _ (List.mem_cons_of_mem _ (List.mem_cons_of_mem _ (List.mem_cons_of_mem _ (List.mem_cons_of_mem _ (List.mem_cons_of_mem _ (List.mem_cons_of_mem _ (List.mem_cons_of_mem _ (List.mem_cons_of_mem _ (List.mem_cons_of_mem _ (List.mem_cons_of_mem _ (List.mem_cons_of_mem _ (List.mem_cons_of_mem _ (List.mem_cons_of_mem _ (List.mem_cons_of_mem _ (List.mem_cons_of_mem _ (List.mem_cons_of_mem _ (List.mem_cons_of_mem _ (List.mem_cons_of_mem _ (List.mem_cons_of_mem _ (List.mem_cons_of_mem _ (List.mem_cons_of_mem _ (List.mem_cons_of_mem _ (List.mem_cons_of_mem _ (List.mem_cons_of_mem _ (List.mem_cons_of_mem _ (List.mem_cons_of_mem _ (List.mem_cons_of_mem _ (List.mem_cons_of_mem _ (List.mem_cons_of_mem _ (List.mem_cons_of_mem _ (List.mem_cons_of_mem _ (List.mem_cons_of_mem _ (List.mem_cons_self _ _))))))))))))))))))))))))))))))))))))))))))))),
      if_neg (hne _ (List.mem_cons_of_mem _ (List.mem_cons_of_mem _ (List.mem_cons_of_mem _ (List.mem_cons_of_mem _ (List.mem_cons_of_mem _ (List.mem_cons_of_mem _ (List.mem_cons_of_mem _ (List.mem_cons_of_mem _ (List.mem_cons_of_mem _ (List.mem_cons_of_mem _ (List.mem_cons_of_mem _ (List.mem_cons_of_mem _ (List.mem_cons_of_mem _ (List.mem_cons_of_mem _ (List.mem_cons_of_mem _ (List.mem_cons_of_mem _ (List.mem_cons_of_mem _ (List.mem_cons_of_mem _ (List.mem_cons_of_mem _ (List.mem_cons_of_mem _ (List.mem_cons_of_mem _ (List.mem_cons_of_mem _ (List.mem_cons_of_mem _ (List.mem_cons_of_mem _ (List.mem_cons_of_mem _ (List.mem_cons_of_mem _ (List.mem_cons_of_mem _ (List.mem_cons_of_mem _ (List.mem_cons_of_mem _ (List.mem_cons_of_mem _ (List.mem_cons_of_mem _ (List.mem_cons_of_mem _ (List.mem_cons_of_mem _ (List.mem_cons_of_mem _ (List.mem_cons_of_mem _ (List.mem_cons_of_mem _ (List.mem_cons_of_mem _ (List.mem_cons_of_mem _ (List.mem_cons_of_mem _ (List.mem_cons_of_mem _ (List.mem_cons_of_mem _ (List.mem_cons_of_mem _ (List.mem_cons_of_mem _ (List.mem_cons_of_mem _ (List.mem_cons_self _ _)))))))))))))))))))))))))))))))))))))))))))))),
      if_neg (hne _ (List.mem_cons_of_mem _ (List.mem_cons_of_mem _ (List.mem_cons_of_mem _ (List.mem_cons_of_mem _ (List.mem_cons_of_mem _ (List.mem_cons_of_mem _ (List.mem_cons_of_mem _ (List.mem_cons_of_mem _ (List.mem_cons_of_mem _ (List.mem_cons_of_mem _ (List.mem_cons_of_mem _ (List.mem_cons_of_mem _ (List.mem_cons_of_mem _ (List.mem_cons_of_mem _ (List.mem_cons_of_mem _ (List.mem_cons_of_mem _ (List.mem_cons_of_mem _ (List.mem_cons_of_mem _ (List.mem_cons_of_mem _ (List.mem_cons_of_mem _ (List.mem_cons_of_mem _ (List.mem_cons_of_mem _ (List.mem_cons_of_mem _ (List.mem_cons_of_mem _ (List.mem_cons_of_mem _ (List.mem_cons_of_mem _ (List.mem_cons_of_mem _ (List.mem_cons_of_mem _ (List.mem_cons_of_mem _ (List.mem_cons_of_mem _ (List.mem_cons_of_mem _ (List.mem_cons_of_mem _ (List.mem_cons_of_mem _ (List.mem_cons_of_mem _ (List.mem_cons_of_mem _ (List.mem_cons_of_mem _ (List.mem_cons_of_mem _ (List.mem_cons_of_mem _ (List.mem_cons_of_mem _ (List.mem_cons_of_mem _ (List.mem_cons_of_mem _ (List.mem_cons_of_mem _ (List.mem_cons_of_mem _ (List.mem_cons_of_mem _ (List.mem_cons_of_mem _ (List.mem_cons_self _ _))))))))))))))))))))))))))))))))))))))))))))))),
      if_neg (hne _ (List.mem_cons_of_mem _ (List.mem_cons_of_mem _ (List.mem_cons_of_mem _ (List.mem_cons_of_mem _ (List.mem_cons_of_mem _ (List.mem_cons_of_mem _ (List.mem_cons_of_mem _ (List.mem_cons_of_mem _ (List.mem_cons_of_mem _ (List.mem_cons_of_mem _ (List.mem_cons_of_mem _ (List.mem_cons_of_mem _ (List.mem_cons_of_mem _ (List.mem_cons_of_mem _ (List.mem_cons_of_mem _ (List.mem_cons_of_mem _ (List.mem_cons_of_mem _ (List.mem_cons_of_mem _ (List.mem_cons_of_mem _ (List.mem_cons_of_mem _ (List.mem_cons_of_mem _ (List.mem_cons_of_mem _ (List.mem_cons_of_mem _ (List.mem_cons_of_mem _ (List.mem_cons_of_mem _ (List.mem_cons_of_mem _ (List.mem_cons_of_mem _ (List.mem_cons_of_mem _ (List.mem_cons_of_mem _ (List.mem_cons_of_mem _ (List.mem_cons_of_mem _ (List.mem_cons_of_mem _ (List.mem_cons_of_mem _ (List.mem_cons_of_mem _ (List.mem_cons_of_mem _ (List.mem_cons_of_mem _ (List.mem_cons_of_mem _ (List.mem_cons_of_mem _ (List.mem_cons_of_mem _ (List.mem_cons_of_mem _ (List.mem_cons_of_mem _ (List.mem_cons_of_mem _ (List.mem_cons_of_mem _ (List.mem_cons_of_mem _ (List.mem_cons_of_mem _ (List.mem_cons_of_mem _ (List.mem_cons_self _ _)))))))))))))))))))))))))))))))))))))))))))))))),
      if_neg (hne _ (List.mem_cons_of_mem _ (List.mem_cons_of_mem _ (List.mem_cons_of_mem _ (List.mem_cons_of_mem _ (List.mem_cons_of_mem _ (List.mem_cons_of_mem _ (List.mem_cons_of_mem _ (List.mem_cons_of_mem _ (List.mem_cons_of_mem _ (List.mem_cons_of_mem _ (List.mem_cons_of_mem _ (List.mem_cons_of_mem _ (List.mem_cons_of_mem _ (List.mem_cons_of_mem _ (List.mem_cons_of_mem _ (List.mem_cons_of_mem _ (List.mem_cons_of_mem _ (List.mem_cons_of_mem _ (List.mem_cons_of_mem _ (List.mem_cons_of_mem _ (List.mem_cons_of_mem _ (List.mem_cons_of_mem _ (List.mem_cons_of_mem _ (List.mem_cons_of_mem _ (List.mem_cons_of_mem _ (List.mem_cons_of_mem _ (List.mem_cons_of_mem _ (List.mem_cons_of_mem _ (List.mem_cons_of_mem _ (List.mem_cons_of_mem _ (List.mem_cons_of_mem _ (List.mem_cons_of_mem _ (List.mem_cons_of_mem _ (List.mem_cons_of_mem _ (List.mem_cons_of_mem _ (List.mem_cons_of_mem _ (List.mem_cons_of_mem _ (List.mem_cons_of_mem _ (List.mem_cons_of_mem _ (List.mem_cons_of_mem _ (List.mem_cons_of_mem _ (List.mem_cons_of_mem _ (List.mem_cons_of_mem _ (List.mem_cons_of_mem _ (List.mem_cons_of_mem _ (List.mem_cons_of_mem _ (List.mem_cons_of_mem _ (List.mem_cons_self _ _))))))))))))))))))))))))))))))))))))))))))))))))),
      if_neg (hne _ (List.mem_cons_of_mem _ (List.mem_cons_of_mem _ (List.mem_cons_of_mem _ (List.mem_cons_of_mem _ (List.mem_cons_of_mem _ (List.mem_cons_of_mem _ (List.mem_cons_of_mem _ (List.mem_cons_of_mem _ (List.mem_cons_of_mem _ (List.mem_cons_of_mem _ (List.mem_cons_of_mem _ (List.mem_cons_of_mem _ (List.mem_cons_of_mem _ (List.mem_cons_of_mem _ (List.mem_cons_of_mem _ (List.mem_cons_of_mem _ (List.mem_cons_of_mem _ (List.mem_cons_of_mem _ (List.mem_cons_of_mem _ (List.mem_cons_of_mem _ (List.mem_cons_of_mem _ (List.mem_cons_of_mem _ (List.mem_cons_of_mem _ (List.mem_cons_of_mem _ (List.mem_cons_of_mem _ (List.mem_cons_of_mem _ (List.mem_cons_of_mem _ (List.mem_cons_of_mem _ (List.mem_cons_of_mem _ (List.mem_cons_of_mem _ (List.mem_cons_of_mem _ (List.mem_cons_of_mem _ (List.mem_cons_of_mem _ (List.mem_cons_of_mem _ (List.mem_cons_of_mem _ (List.mem_cons_of_mem _ (List.mem_cons_of_mem _ (List.mem_cons_of_mem _ (List.mem_cons_of_mem _ (List.mem_cons_of_mem _ (List.mem_cons_of_mem _ (List.mem_cons_of_mem _ (List.mem_cons_of_mem _ (List.mem_cons_of_mem _ (List.mem_cons_of_mem _ (List.mem_cons_of_mem _ (List.mem_cons_of_mem _ (List.mem_cons_of_mem _ (List.mem_cons_self _ _)))))))))))))))))))))))))))))))))))))))))))))))))),
      if_neg (hne _ (List.mem_cons_of_mem _ (List.mem_cons_of_mem _ (List.mem_cons_of_mem _ (List.mem_cons_of_mem _ (List.mem_cons_of_mem _ (List.mem_cons_of_mem _ (List.mem_cons_of_mem _ (List.mem_cons_of_mem _ (List.mem_cons_of_mem _ (List.mem_cons_of_mem _ (List.mem_cons_of_mem _ (List.mem_cons_of_mem _ (List.mem_cons_of_mem _ (List.mem_cons_of_mem _ (List.mem_cons_of_mem _ (List.mem_cons_of_mem _ (List.mem_cons_of_mem _ (List.mem_cons_of_mem _ (List.mem_cons_of_mem _ (List.mem_cons_of_mem _ (List.mem_cons_of_mem _ (List.mem_cons_of_mem _ (List.mem_cons_of_mem _ (List.mem_cons_of_mem _ (List.mem_cons_of_mem _ (List.mem_cons_of_mem _ (List.mem_cons_of_mem _ (List.mem_cons_of_mem _ (List.mem_cons_of_mem _ (List.mem_cons_of_mem _ (List.mem_cons_of_mem _ (List.mem_cons_of_mem _ (List.mem_cons_of_mem _ (List.mem_cons_of_mem _ (List.mem_cons_of_mem _ (List.mem_cons_of_mem _ (List.mem_cons_of_mem _ (List.mem_cons_of_mem _ (List.mem_cons_of_mem _ (List.mem_cons_of_mem _ (List.mem_cons_of_mem _ (List.mem_cons_of_mem _ (List.mem_cons_of_mem _ (List.mem_cons_of_mem _ (List.mem_cons_of_mem _ (List.mem_cons_of_mem _ (List.mem_cons_of_mem _ (List.mem_cons_of_mem _ (List.mem_cons_of_mem _ (List.mem_cons_self _ _))))))))))))))))))))))))))))))))))))))))))))))))))),
      if_neg (hne _ (List.mem_cons_of_mem _ (List.mem_cons_of_mem _ (List.mem_cons_of_mem _ (List.mem_cons_of_mem _ (List.mem_cons_of_mem _ (List.mem_cons_of_mem _ (List.mem_cons_of_mem _ (List.mem_cons_of_mem _ (List.mem_cons_of_mem _ (List.mem_cons_of_mem _ (List.mem_cons_of_mem _ (List.mem_cons_of_mem _ (List.mem_cons_of_mem _ (List.mem_cons_of_mem _ (List.mem_cons_of_mem _ (List.mem_cons_of_mem _ (List.mem_cons_of_mem _ (List.mem_cons_of_mem _ (List.mem_cons_of_mem _ (List.mem_cons_of_mem _ (List.mem_cons_of_mem _ (List.mem_cons_of_mem _ (List.mem_cons_of_mem _ (List.mem_cons_of_mem _ (List.mem_cons_of_mem _ (List.mem_cons_of_mem _ (List.mem_cons_of_mem _ (List.mem_cons_of_mem _ (List.mem_cons_of_mem _ (List.mem_cons_of_mem _ (List.mem_cons_of_mem _ (List.mem_cons_of_mem _ (List.mem_cons_of_mem _ (List.mem_cons_of_mem _ (List.mem_cons_of_mem _ (List.mem_cons_of_mem _ (List.mem_cons_of_mem _ (List.mem_cons_of_mem _ (List.mem_cons_of_mem _ (List.mem_cons_of_mem _ (List.mem_cons_of_mem _ (List.mem_cons_of_mem _ (List.mem_cons_of_mem _ (List.mem_cons_of_mem _ (List.mem_cons_of_mem _ (List.mem_cons_of_mem _ (List.mem_cons_of_mem _ (List.mem_cons_of_mem _ (List.mem_cons_of_mem _ (List.mem_cons_of_mem _ (List.mem_cons_self _ _)))))))))))))))))))))))))))))))))))))))))))))))))))),
      if_neg (hne _ (List.mem_cons_of_mem _ (List.mem_cons_of_mem _ (List.mem_cons_of_mem _ (List.mem_cons_of_mem _ (List.mem_cons_of_mem _ (List.mem_cons_of_mem _ (List.mem_cons_of_mem _ (List.mem_cons_of_mem _ (List.mem_cons_of_mem _ (List.mem_cons_of_mem _ (List.mem_cons_of_mem _ (List.mem_cons_of_mem _ (List.mem_cons_of_mem _ (List.mem_cons_of_mem _ (List.mem_cons_of_mem _ (List.mem_cons_of_mem _ (List.mem_cons_of_mem _ (List.mem_cons_of_mem _ (List.mem_cons_of_mem _ (List.mem_cons_of_mem _ (List.mem_cons_of_mem _ (List.mem_cons_of_mem _ (List.mem_cons_of_mem _ (List.mem_cons_of_mem _ (List.mem_cons_of_mem _ (List.mem_cons_of_mem _ (List.mem_cons_of_mem _ (List.mem_cons_of_mem _ (List.mem_cons_of_mem _ (List.mem_cons_of_mem _ (List.mem_cons_of_mem _ (List.mem_cons_of_mem _ (List.mem_cons_of_mem _ (List.mem_cons_of_mem _ (List.mem_cons_of_mem _ (List.mem_cons_of_mem _ (List.mem_cons_of_mem _ (List.mem_cons_of_mem _ (List.mem_cons_of_mem _ (List.mem_cons_of_mem _ (List.mem_cons_of_mem _ (List.mem_cons_of_mem _ (List.mem_cons_of_mem _ (List.mem_cons_of_mem _ (List.mem_cons_of_mem _ (List.mem_cons_of_mem _ (List.mem_cons_of_mem _ (List.mem_cons_of_mem _ (List.mem_cons_of_mem _ (List.mem_cons_of_mem _ (List.mem_cons_of_mem _ (List.mem_cons_self _ _))))))))))))))))))))))))))))))))))))))))))))))))))))),
      if_neg (hne _ (List.mem_cons_of_mem _ (List.mem_cons_of_mem _ (List.mem_cons_of_mem _ (List.mem_cons_of_mem _ (List.mem_cons_of_mem _ (List.mem_cons_of_mem _ (List.mem_cons_of_mem _ (List.mem_cons_of_mem _ (List.mem_cons_of_mem _ (List.mem_cons_of_mem _ (List.mem_cons_of_mem _ (List.mem_cons_of_mem _ (List.mem_cons_of_mem _ (List.mem_cons_of_mem _ (List.mem_cons_of_mem _ (List.mem_cons_of_mem _ (List.mem_cons_of_mem _ (List.mem_cons_of_mem _ (List.mem_cons_of_mem _ (List.mem_cons_of_mem _ (List.mem_cons_of_mem _ (List.mem_cons_of_mem _ (List.mem_cons_of_mem _ (List.mem_cons_of_mem _ (List.mem_cons_of_mem _ (List.mem_cons_of_mem _ (List.mem_cons_of_mem _ (List.mem_cons_of_mem _ (List.mem_cons_of_mem _ (List.mem_cons_of_mem _ (List.mem_cons_of_mem _ (List.mem_cons_of_mem _ (List.mem_cons_of_mem _ (List.mem_cons_of_mem _ (List.mem_cons_of_mem _ (List.mem_cons_of_mem _ (List.mem_cons_of_mem _ (List.mem_cons_of_mem _ (List.mem_cons_of_mem _ (List.mem_cons_of_mem _ (List.mem_cons_of_mem _ (List.mem_cons_of_mem _ (List.mem_cons_of_mem _ (List.mem_cons_of_mem _ (List.mem_cons_of_mem _ (List.mem_cons_of_mem _ (List.mem_cons_of_mem _ (List.mem_cons_of_mem _ (List.mem_cons_of_mem _ (List.mem_cons_of_mem _ (List.mem_cons_of_mem _ (List.mem_cons_of_mem _ (List.mem_cons_self _ _)))))))))))))))))))))))))))))))))))))))))))))))))))))),
      if_neg (hne _ (List.mem_cons_of_mem _ (List.mem_cons_of_mem _ (List.mem_cons_of_mem _ (List.mem_cons_of_mem _ (List.mem_cons_of_mem _ (List.mem_cons_of_mem _ (List.mem_cons_of_mem _ (List.mem_cons_of_mem _ (List.mem_cons_of_mem _ (List.mem_cons_of_mem _ (List.mem_cons_of_mem _ (List.mem_cons_of_mem _ (List.mem_cons_of_mem _ (List.mem_cons_of_mem _ (List.mem_cons_of_mem _ (List.mem_cons_of_mem _ (List.mem_cons_of_mem _ (List.mem_cons_of_mem _ (List.mem_cons_of_mem _ (List.mem_cons_of_mem _ (List.mem_cons_of_mem _ (List.mem_cons_of_mem _ (List.mem_cons_of_mem _ (List.mem_cons_of_mem _ (List.mem_cons_of_mem _ (List.mem_cons_of_mem _ (List.mem_cons_of_mem _ (List.mem_cons_of_mem _ (List.mem_cons_of_mem _ (List.mem_cons_of_mem _ (List.mem_cons_of_mem _ (List.mem_cons_of_mem _ (List.mem_cons_of_mem _ (List.mem_cons_of_mem _ (List.mem_cons_of_mem _ (List.mem_cons_of_mem _ (List.mem_cons_of_mem _ (List.mem_cons_of_mem _ (List.mem_cons_of_mem _ (List.mem_cons_of_mem _ (List.mem_cons_of_mem _ (List.mem_cons_of_mem _ (List.mem_cons_of_mem _ (List.mem_cons_of_mem _ (List.mem_cons_of_mem _ (List.mem_cons_of_mem _ (List.mem_cons_of_mem _ (List.mem_cons_of_mem _ (List.mem_cons_of_mem _ (List.mem_cons_of_mem _ (List.mem_cons_of_mem _ (List.mem_cons_of_mem _ (List.mem_cons_of_mem _ (List.mem_cons_self _ _))))))))))))))))))))))))))))))))))))))))))))))))))))))),
      if_neg (hne _ (List.mem_cons_of_mem _ (List.mem_cons_of_mem _ (List.mem_cons_of_mem _ (List.mem_cons_of_mem _ (List.mem_cons_of_mem _ (List.mem_cons_of_mem _ (List.mem_cons_of_mem _ (List.mem_cons_of_mem _ (List.mem_cons_of_mem _ (List.mem_cons_of_mem _ (List.mem_cons_of_mem _ (List.mem_cons_of_mem _ (List.mem_cons_of_mem _ (List.mem_cons_of_mem _ (List.mem_cons_of_mem _ (List.mem_cons_of_mem _ (List.mem_cons_of_mem _ (List.mem_cons_of_mem _ (List.mem_cons_of_mem _ (List.mem_cons_of_mem _ (List.mem_cons_of_mem _ (List.mem_cons_of_mem _ (List.mem_cons_of_mem _ (List.mem_cons_of_mem _ (List.mem_cons_of_mem _ (List.mem_cons_of_mem _ (List.mem_cons_of_mem _ (List.mem_cons_of_mem _ (List.mem_cons_of_mem _ (List.mem_cons_of_mem _ (List.mem_cons_of_mem _ (List.mem_cons_of_mem _ (List.mem_cons_of_mem _ (List.mem_cons_of_mem _ (List.mem_cons_of_mem _ (List.mem_cons_of_mem _ (List.mem_cons_of_mem _ (List.mem_cons_of_mem _ (List.mem_cons_of_mem _ (List.mem_cons_of_mem _ (List.mem_cons_of_mem _ (List.mem_cons_of_mem _ (List.mem_cons_of_mem _ (List.mem_cons_of_mem _ (List.mem_cons_of_mem _ (List.mem_cons_of_mem _ (List.mem_cons_of_mem _ (List.mem_cons_of_mem _ (List.mem_cons_of_mem _ (List.mem_cons_of_mem _ (List.mem_cons_of_mem _ (List.mem_cons_of_mem _ (List.mem_cons_of_mem _ (List.mem_cons_of_mem _ (List.mem_cons_self _ _)))))))))))))))))))))))))))))))))))))))))))))))))))))))),
      if_neg (hne _ (List.mem_cons_of_mem _ (List.mem_cons_of_mem _ (List.mem_cons_of_mem _ (List.mem_cons_of_mem _ (List.mem_cons_of_mem _ (List.mem_cons_of_mem _ (List.mem_cons_of_mem _ (List.mem_cons_of_mem _ (List.mem_cons_of_mem _ (List.mem_cons_of_mem _ (List.mem_cons_of_mem _ (List.mem_cons_of_mem _ (List.mem_cons_of_mem _ (List.mem_cons_of_mem _ (List.mem_cons_of_mem _ (List.mem_cons_of_mem _ (List.mem_cons_of_mem _ (List.mem_cons_of_mem _ (List.mem_cons_of_mem _ (List.mem_cons_of_mem _ (List.mem_cons_of_mem _ (List.mem_cons_of_mem _ (List.mem_cons_of_mem _ (List.mem_cons_of_mem _ (List.mem_cons_of_mem _ (List.mem_cons_of_mem _ (List.mem_cons_of_mem _ (List.mem_cons_of_mem _ (List.mem_cons_of_mem _ (List.mem_cons_of_mem _ (List.mem_cons_of_mem _ (List.mem_cons_of_mem _ (List.mem_cons_of_mem _ (List.mem_cons_of_mem _ (List.mem_cons_of_mem _ (List.mem_cons_of_mem _ (List.mem_cons_of_mem _ (List.mem_cons_of_mem _ (List.mem_cons_of_mem _ (List.mem_cons_of_mem _ (List.mem_cons_of_mem _ (List.mem_cons_of_mem _ (List.mem_cons_of_mem _ (List.mem_cons_of_mem _ (List.mem_cons_of_mem _ (List.mem_cons_of_mem _ (List.mem_cons_of_mem _ (List.mem_cons_of_mem _ (List.mem_cons_of_mem _ (List.mem_cons_of_mem _ (List.mem_cons_of_mem _ (List.mem_cons_of_mem _ (List.mem_cons_of_mem _ (List.mem_cons_of_mem _ (List.mem_cons_of_mem _ (List.mem_cons_self _ _))))))))))))))))))))))))))))))))))))))))))))))))))))))))),
      if_neg (hne _ (List.mem_cons_of_mem _ (List.mem_cons_of_mem _ (List.mem_cons_of_mem _ (List.mem_cons_of_mem _ (List.mem_cons_of_mem _ (List.mem_cons_of_mem _ (List.mem_cons_of_mem _ (List.mem_cons_of_mem _ (List.mem_cons_of_mem _ (List.mem_cons_of_mem _ (List.mem_cons_of_mem _ (List.mem_cons_of_mem _ (List.mem_cons_of_mem _ (List.mem_cons_of_mem _ (List.mem_cons_of_mem _ (List.mem_cons_of_mem _ (List.mem_cons_of_mem _ (List.mem_cons_of_mem _ (List.mem_cons_of_mem _ (List.mem_cons_of_mem _ (List.mem_cons_of_mem _ (List.mem_cons_of_mem _ (List.mem_cons_of_mem _ (List.mem_cons_of_mem _ (List.mem_cons_of_mem _ (List.mem_cons_of_mem _ (List.mem_cons_of_mem _ (List.mem_cons_of_mem _ (List.mem_cons_of_mem _ (List.mem_cons_of_mem _ (List.mem_cons_of_mem _ (List.mem_cons_of_mem _ (List.mem_cons_of_mem _ (List.mem_cons_of_mem _ (List.mem_cons_of_mem _ (List.mem_cons_of_mem _ (List.mem_cons_of_mem _ (List.mem_cons_of_mem _ (List.mem_cons_of_mem _ (List.mem_cons_of_mem _ (List.mem_cons_of_mem _ (List.mem_cons_of_mem _ (List.mem_cons_of_mem _ (List.mem_cons_of_mem _ (List.mem_cons_of_mem _ (List.mem_cons_of_mem _ (List.mem_cons_of_mem _ (List.mem_cons_of_mem _ (List.mem_cons_of_mem _ (List.mem_cons_of_mem _ (List.mem_cons_of_mem _ (List.mem_cons_of_mem _ (List.mem_cons_of_mem _ (List.mem_cons_of_mem _ (List.mem_cons_of_mem _ (List.mem_cons_of_mem _ (List.mem_cons_self _ _)))))))))))))))))))))))))))))))))))))))))))))))))))))))))),
      if_neg (hne _ (List.mem_cons_of_mem _ (List.mem_cons_of_mem _ (List.mem_cons_of_mem _ (List.mem_cons_of_mem _ (List.mem_cons_of_mem _ (List.mem_cons_of_mem _ (List.mem_cons_of_mem _ (List.mem_cons_of_mem _ (List.mem_cons_of_mem _ (List.mem_cons_of_mem _ (List.mem_cons_of_mem _ (List.mem_cons_of_mem _ (List.mem_cons_of_mem _ (List.mem_cons_of_mem _ (List.mem_cons_of_mem _ (List.mem_cons_of_mem _ (List.mem_cons_of_mem _ (List.mem_cons_of_mem _ (List.mem_cons_of_mem _ (List.mem_cons_of_mem _ (List.mem_cons_of_mem _ (List.mem_cons_of_mem _ (List.mem_cons_of_mem _ (List.mem_cons_of_mem _ (List.mem_cons_of_mem _ (List.mem_cons_of_mem _ (List.mem_cons_of_mem _ (List.mem_cons_of_mem _ (List.mem_cons_of_mem _ (List.mem_cons_of_mem _ (List.mem_cons_of_mem _ (List.mem_cons_of_mem _ (List.mem_cons_of_mem _ (List.mem_cons_of_mem _ (List.mem_cons_of_mem _ (List.mem_cons_of_mem _ (List.mem_cons_of_mem _ (List.mem_cons_of_mem _ (List.mem_cons_of_mem _ (List.mem_cons_of_mem _ (List.mem_cons_of_mem _ (List.mem_cons_of_mem _ (List.mem_cons_of_mem _ (List.mem_cons_of_mem _ (List.mem_cons_of_mem _ (List.mem_cons_of_mem _ (List.mem_cons_of_mem _ (List.mem_cons_of_mem _ (List.mem_cons_of_mem _ (List.mem_cons_of_mem _ (List.mem_cons_of_mem _ (List.mem_cons_of_mem _ (List.mem_cons_of_mem _ (List.mem_cons_of_mem _ (List.mem_cons_of_mem _ (List.mem_cons_of_mem _ (List.mem_cons_of_mem _ (List.mem_cons_self _ _))))))))))))))))))))))))))))))))))))))))))))))))))))))))))),
      if_neg (hne _ (List.mem_cons_of_mem _ (List.mem_cons_of_mem _ (List.mem_cons_of_mem _ (List.mem_cons_of_mem _ (List.mem_cons_of_mem _ (List.mem_cons_of_mem _ (List.mem_cons_of_mem _ (List.mem_cons_of_mem _ (List.mem_cons_of_mem _ (List.mem_cons_of_mem _ (List.mem_cons_of_mem _ (List.mem_cons_of_mem _ (List.mem_cons_of_mem _ (List.mem_cons_of_mem _ (List.mem_cons_of_mem _ (List.mem_cons_of_mem _ (List.mem_cons_of_mem _ (List.mem_cons_of_mem _ (List.mem_cons_of_mem _ (List.mem_cons_of_mem _ (List.mem_cons_of_mem _ (List.mem_cons_of_mem _ (List.mem_cons_of_mem _ (List.mem_cons_of_mem _ (List.mem_cons_of_mem _ (List.mem_cons_of_mem _ (List.mem_cons_of_mem _ (List.mem_cons_of_mem _ (List.mem_cons_of_mem _ (List.mem_cons_of_mem _ (List.mem_cons_of_mem _ (List.mem_cons_of_mem _ (List.mem_cons_of_mem _ (List.mem_cons_of_mem _ (List.mem_cons_of_mem _ (List.mem_cons_of_mem _ (List.mem_cons_of_mem _ (List.mem_cons_of_mem _ (List.mem_cons_of_mem _ (List.mem_cons_of_mem _ (List.mem_cons_of_mem _ (List.mem_cons_of_mem _ (List.mem_cons_of_mem _ (List.mem_cons_of_mem _ (List.mem_cons_of_mem _ (List.mem_cons_of_mem _ (List.mem_cons_of_mem _ (List.mem_cons_of_mem _ (List.mem_cons_of_mem _ (List.mem_cons_of_mem _ (List.mem_cons_of_mem _ (List.mem_cons_of_mem _ (List.mem_cons_of_mem _ (List.mem_cons_of_mem _ (List.mem_cons_of_mem _ (List.mem_cons_of_mem _ (List.mem_cons_of_mem _ (List.mem_cons_of_mem _ (List.mem_cons_self _ _)))))))))))))))))))))))))))))))))))))))))))))))))))))))))))),
      if_neg (hne _ (List.mem_cons_of_mem _ (List.mem_cons_of_mem _ (List.mem_cons_of_mem _ (List.mem_cons_of_mem _ (List.mem_cons_of_mem _ (List.mem_cons_of_mem _ (List.mem_cons_of_mem _ (List.mem_cons_of_mem _ (List.mem_cons_of_mem _ (List.mem_cons_of_mem _ (List.mem_cons_of_mem _ (List.mem_cons_of_mem _ (List.mem_cons_of_mem _ (List.mem_cons_of_mem _ (List.mem_cons_of_mem _ (List.mem_cons_of_mem _ (List.mem_cons_of_mem _ (List.mem_cons_of_mem _ (List.mem_cons_of_mem _ (List.mem_cons_of_mem _ (List.mem_cons_of_mem _ (List.mem_cons_of_mem _ (List.mem_cons_of_mem _ (List.mem_cons_of_mem _ (List.mem_cons_of_mem _ (List.mem_cons_of_mem _ (List.mem_cons_of_mem _ (List.mem_cons_of_mem _ (List.mem_cons_of_mem _ (List.mem_cons_of_mem _ (List.mem_cons_of_mem _ (List.mem_cons_of_mem _ (List.mem_cons_of_mem _ (List.mem_cons_of_mem _ (List.mem_cons_of_mem _ (List.mem_cons_of_mem _ (List.mem_cons_of_mem _ (List.mem_cons_of_mem _ (List.mem_cons_of_mem _ (List.mem_cons_of_mem _ (List.mem_cons_of_mem _ (List.mem_cons_of_mem _ (List.mem_cons_of_mem _ (List.mem_cons_of_mem _ (List.mem_cons_of_mem _ (List.mem_cons_of_mem _ (List.mem_cons_of_mem _ (List.mem_cons_of_mem _ (List.mem_cons_of_mem _ (List.mem_cons_of_mem _ (List.mem_cons_of_mem _ (List.mem_cons_of_mem _ (List.mem_cons_of_mem _ (List.mem_cons_of_mem _ (List.mem_cons_of_mem _ (List.mem_cons_of_mem _ (List.mem_cons_of_mem _ (List.mem_cons_of_mem _ (List.mem_cons_of_mem _ (List.mem_cons_self _ _))))))))))))))))))))))))))))))))))))))))))))))))))))))))))))),
      if_neg (hne _ (List.mem_cons_of_mem _ (List.mem_cons_of_mem _ (List.mem_cons_of_mem _ (List.mem_cons_of_mem _ (List.mem_cons_of_mem _ (List.mem_cons_of_mem _ (List.mem_cons_of_mem _ (List.mem_cons_of_mem _ (List.mem_cons_of_mem _ (List.mem_cons_of_mem _ (List.mem_cons_of_mem _ (List.mem_cons_of_mem _ (List.mem_cons_of_mem _ (List.mem_cons_of_mem _ (List.mem_cons_of_mem _ (List.mem_cons_of_mem _ (List.mem_cons_of_mem _ (List.mem_cons_of_mem _ (List.mem_cons_of_mem _ (List.mem_cons_of_mem _ (List.mem_cons_of_mem _ (List.mem_cons_of_mem _ (List.mem_cons_of_mem _ (List.mem_cons_of_mem _ (List.mem_cons_of_mem _ (List.mem_cons_of_mem _ (List.mem_cons_of_mem _ (List.mem_cons_of_mem _ (List.mem_cons_of_mem _ (List.mem_cons_of_mem _ (List.mem_cons_of_mem _ (List.mem_cons_of_mem _ (List.mem_cons_of_mem _ (List.mem_cons_of_mem _ (List.mem_cons_of_mem _ (List.mem_cons_of_mem _ (List.mem_cons_of_mem _ (List.mem_cons_of_mem _ (List.mem_cons_of_mem _ (List.mem_cons_of_mem _ (List.mem_cons_of_mem _ (List.mem_cons_of_mem _ (List.mem_cons_of_mem _ (List.mem_cons_of_mem _ (List.mem_cons_of_mem _ (List.mem_cons_of_mem _ (List.mem_cons_of_mem _ (List.mem_cons_of_mem _ (List.mem_cons_of_mem _ (List.mem_cons_of_mem _ (List.mem_cons_of_mem _ (List.mem_cons_of_mem _ (List.mem_cons_of_mem _ (List.mem_cons_of_mem _ (List.mem_cons_of_mem _ (List.mem_cons_of_mem _ (List.mem_cons_of_mem _ (List.mem_cons_of_mem _ (List.mem_cons_of_mem _ (List.mem_cons_of_mem _ (List.mem_cons_self _ _)))))))))))))))))))))))))))))))))))))))))))))))))))))))))))))),
      if_neg (hne _ (List.mem_cons_of_mem _ (List.mem_cons_of_mem _ (List.mem_cons_of_mem _ (List.mem_cons_of_mem _ (List.mem_cons_of_mem _ (List.mem_cons_of_mem _ (List.mem_cons_of_mem _ (List.mem_cons_of_mem _ (List.mem_cons_of_mem _ (List.mem_cons_of_mem _ (List.mem_cons_of_mem _ (List.mem_cons_of_mem _ (List.mem_cons_of_mem _ (List.mem_cons_of_mem _ (List.mem_cons_of_mem _ (List.mem_cons_of_mem _ (List.mem_cons_of_mem _ (List.mem_cons_of_mem _ (List.mem_cons_of_mem _ (List.mem_cons_of_mem _ (List.mem_cons_of_mem _ (List.mem_cons_of_mem _ (List.mem_cons_of_mem _ (List.mem_cons_of_mem _ (List.mem_cons_of_mem _ (List.mem_cons_of_mem _ (List.mem_cons_of_mem _ (List.mem_cons_of_mem _ (List.mem_cons_of_mem _ (List.mem_cons_of_mem _ (List.mem_cons_of_mem _ (List.mem_cons_of_mem _ (List.mem_cons_of_mem _ (List.mem_cons_of_mem _ (List.mem_cons_of_mem _ (List.mem_cons_of_mem _ (List.mem_cons_of_mem _ (List.mem_cons_of_mem _ (List.mem_cons_of_mem _ (List.mem_cons_of_mem _ (List.mem_cons_of_mem _ (List.mem_cons_of_mem _ (List.mem_cons_of_mem _ (List.mem_cons_of_mem _ (List.mem_cons_of_mem _ (List.mem_cons_of_mem _ (List.mem_cons_of_mem _ (List.mem_cons_of_mem _ (List.mem_cons_of_mem _ (List.mem_cons_of_mem _ (List.mem_cons_of_mem _ (List.mem_cons_of_mem _ (List.mem_cons_of_mem _ (List.mem_cons_of_mem _ (List.mem_cons_of_mem _ (List.mem_cons_of_mem _ (List.mem_cons_of_mem _ (List.mem_cons_of_mem _ (List.mem_cons_of_mem _ (List.mem_cons_of_mem _ (List.mem_cons_of_mem _ (List.mem_cons_self _ _)))))))))))))))))))))))))))))))))))))))))))))))))))))))))))))))]
  simp [parseNotificationDoc, htag]

/-- Witness for C9 at `event_type = "some_future_event"`. -/
theorem C9_unknown_tag_parses_to_other_witness :
    parseNotificationDoc ⟨"some_future_event", none, "t", "s", none, none⟩
      = .ok ⟨.other, none, "t", "s", none, none⟩ :=
  C9_unknown_tag_parses_to_other "some_future_event" (by simp [recognizedTags])
    none "t" "s" none none

/-- Claim C10: `read_line` returns `Ok(None)` both when the timer elapses
and when the framed stream has ended (`None` item), so at this interface a
cleanly closed connection is indistinguishable from "no data within
timeout". -/
theorem C10_eof_indistinguishable_from_timeout :
    read_line (.ready none) = .ok none ∧ read_line .elapsed = .ok none ∧
      read_line (.ready none) = read_line .elapsed := by
  refine ⟨?_, ?_, ?_⟩
  · decide
  · decide
  · decide
